import Mathlib

/-!
The ptrace core of the cryopid process state saver.

A shallow embedding of `arch-x86_64/process.c` (release 0.5.0) and
`arch-sparc/process.c`: page backup and restore, the word-wise memory bridge,
the register save/restore helpers, the remote system call engine and the
capture orchestrator `get_process`.

Modelling conventions.

* The traced target is its register file and its memory.  Memory is the map from
  the address of a `long` to the word stored there, which is what
  `PTRACE_PEEKTEXT` and `PTRACE_POKETEXT` read and write; every loop of the
  source walks addresses that are `sizeof(long)` apart.  Addresses, words and
  `unsigned long` values are natural numbers.
* A local array of `long` (a page backup, the buffers handed to the memory
  bridge) is a map from index to word.
* The kernel is an environment `Env`: it says which requests fail and with which
  error number, what a resumed target does, and what `waitpid` reports.
  Requests are numbered by the counter `tick` of the state.
* `perror`, `fprintf`, `printf` and `free` are not modelled, nor is any effect
  of the standard I/O calls of `process_is_stopped` on `errno`.
* The `int` loop counters are natural numbers; they stay below `INT_MAX` unless a
  buffer of more than `INT_MAX` words is copied.
* A C function that can terminate the process yields a `Result`.
-/

namespace Cryopid

/-- Outcome of a C function that may end the process: a normal return with a
value, `exit(code)`, or `abort()`; each with the state reached. -/
inductive Result (σ α : Type) where
  | ret (v : α) (s : σ)
  | exit (code : Int) (s : σ)
  | abort (s : σ)

/-- The state in which the function returned or the process ended. -/
def Result.state {σ α : Type} : Result σ α → σ
  | .ret _ s => s
  | .exit _ s => s
  | .abort s => s

/-- Whether the function returned to its caller. -/
def Result.returned {σ α : Type} : Result σ α → Bool
  | .ret _ _ => true
  | _ => false

/-- Whether the process ended in `abort()`. -/
def Result.aborted {σ α : Type} : Result σ α → Bool
  | .abort _ => true
  | _ => false

/-- The returned value, if the function returned. -/
def Result.value? {σ α : Type} : Result σ α → Option α
  | .ret v _ => some v
  | _ => none

/-- Architecture constants that come from system headers: `sizeof(long)`,
`PAGE_SIZE` and the poison word stamped by `backup_page`. -/
structure Arch where
  sizeof_long : Nat
  PAGE_SIZE : Nat
  ARCH_POISON : Nat

/-- The value `-1` converted to `unsigned long`. -/
def Arch.minus_one (A : Arch) : Nat := 2 ^ (8 * A.sizeof_long) - 1

/-- State of the tracer and of the traced target, over a register file `R`. -/
structure State (R : Type) where
  /-- register file of the target -/
  regs : R
  /-- memory of the target: the word stored at an address -/
  mem : Nat → Nat
  /-- the error indicator `errno` of the tracer -/
  errno : Int
  /-- number of kernel requests made so far -/
  tick : Nat
  /-- the global `scribble_zone` -/
  scribble_zone : Nat
  /-- the global `syscall_loc` (SPARC) -/
  syscall_loc : Nat
  /-- the static `process_was_stopped` -/
  process_was_stopped : Int
  /-- the global `mysp` (SPARC) -/
  mysp : Nat

/-- The kernel and C library as seen by the tracer. -/
structure Env (R : Type) where
  /-- error number with which request number `k` fails; `0` when it succeeds -/
  err : Nat → Nat
  /-- what the target does when request number `k` resumes it for one step -/
  resume : Nat → R × (Nat → Nat) → R × (Nat → Nat)
  /-- wait status stored by `waitpid` when it is request number `k` -/
  status : Nat → Nat
  /-- whether the C library resets `errno` to zero on a successful peek -/
  peek_clears_errno : Bool
  /-- third field of `/proc/<pid>/stat`; `none` when the file cannot be opened -/
  stat_mode : Option Char
  /-- indeterminate initial value of an uninitialised register struct -/
  uninit_regs : R
  /-- indeterminate contents of freshly allocated page storage -/
  uninit_page : Nat → Nat

section Primitives

variable {R : Type}

/-- The state after request number `s.tick` failed: `errno` holds its error. -/
def State.failed (E : Env R) (s : State R) : State R :=
  { s with tick := s.tick + 1, errno := (E.err s.tick : Int) }

/-- Request `ptrace(PTRACE_PEEKTEXT, pid, addr, 0)`: the word at `addr`, or `-1`
with `errno` set. -/
def ptrace_PEEKTEXT (A : Arch) (E : Env R) (addr : Nat) (s : State R) : Nat × State R :=
  if E.err s.tick = 0 then
    (s.mem addr,
      { s with tick := s.tick + 1, errno := if E.peek_clears_errno then 0 else s.errno })
  else (A.minus_one, s.failed E)

/-- Request `ptrace(PTRACE_POKETEXT, pid, addr, data)`: `0` after storing `data`
at `addr`, or `-1` with `errno` set. -/
def ptrace_POKETEXT (E : Env R) (addr data : Nat) (s : State R) : Int × State R :=
  if E.err s.tick = 0 then
    (0, { s with tick := s.tick + 1, mem := Function.update s.mem addr data })
  else (-1, s.failed E)

/-- Request `ptrace(PTRACE_GETREGS, ...)` into a register struct whose previous
contents are `r`. -/
def ptrace_GETREGS (E : Env R) (r : R) (s : State R) : Int × R × State R :=
  if E.err s.tick = 0 then (0, s.regs, { s with tick := s.tick + 1 })
  else (-1, r, s.failed E)

/-- Request `ptrace(PTRACE_SETREGS, ...)` from the register struct `r`. -/
def ptrace_SETREGS (E : Env R) (r : R) (s : State R) : Int × State R :=
  if E.err s.tick = 0 then (0, { s with tick := s.tick + 1, regs := r })
  else (-1, s.failed E)

/-- Requests `PTRACE_SINGLESTEP` and `PTRACE_SYSCALL`: the target is resumed and
runs until its next stop. -/
def ptrace_resume (E : Env R) (s : State R) : Int × State R :=
  if E.err s.tick = 0 then
    (0, { s with tick := s.tick + 1,
                 regs := (E.resume s.tick (s.regs, s.mem)).1,
                 mem := (E.resume s.tick (s.regs, s.mem)).2 })
  else (-1, s.failed E)

/-- Requests `PTRACE_ATTACH` and `PTRACE_DETACH`. -/
def ptrace_plain (E : Env R) (s : State R) : Int × State R :=
  if E.err s.tick = 0 then (0, { s with tick := s.tick + 1 })
  else (-1, s.failed E)

/-- Call `waitpid(pid, &status, 0)`: the return value and the status stored. -/
def waitpid (E : Env R) (s : State R) : Int × Nat × State R :=
  if E.err s.tick = 0 then (1, E.status s.tick, { s with tick := s.tick + 1 })
  else (-1, 0, s.failed E)

end Primitives

section Pages

variable {R : Type}

/-- The loop of `backup_page`, with `k` iterations left and counter `i`. -/
def backup_page_loop (A : Arch) (E : Env R) (addr : Nat) :
    Nat → Nat → (Nat → Nat) → State R → Option (Nat → Nat) × State R
  | 0, _, page, s => (some page, s)
  | k + 1, i, page, s =>
    let p := ptrace_PEEKTEXT A E (addr + i * A.sizeof_long) s
    if p.2.errno ≠ 0 then (none, p.2)
    else
      let q := ptrace_POKETEXT E (addr + i * A.sizeof_long) A.ARCH_POISON p.2
      if q.1 = -1 then (none, q.2)
      else backup_page_loop A E addr k (i + 1) (Function.update page i p.1) q.2

/-- Function `backup_page(target, addr)`: `none` is the `NULL` result. -/
def backup_page (A : Arch) (E : Env R) (addr : Nat) (s : State R) :
    Option (Nat → Nat) × State R :=
  backup_page_loop A E addr (A.PAGE_SIZE / A.sizeof_long) 0 E.uninit_page s

/-- The loop of `restore_page`, with `k` iterations left and counter `i`. -/
def restore_page_loop (A : Arch) (E : Env R) (addr : Nat) (p : Nat → Nat) :
    Nat → Nat → State R → Int × State R
  | 0, _, s => (1, s)
  | k + 1, i, s =>
    let q := ptrace_POKETEXT E (addr + i * A.sizeof_long) (p i) s
    if q.1 = -1 then (0, q.2)
    else restore_page_loop A E addr p k (i + 1) q.2

/-- Function `restore_page(target, addr, page)`; `assert(page)` aborts on `NULL`. -/
def restore_page (A : Arch) (E : Env R) (addr : Nat) (page : Option (Nat → Nat))
    (s : State R) : Result (State R) Int :=
  match page with
  | none => .abort s
  | some p =>
    let r := restore_page_loop A E addr p (A.PAGE_SIZE / A.sizeof_long) 0 s
    .ret r.1 r.2

/-- The loop of `memcpy_into_target`, with `k` iterations left and counter `i`. -/
def memcpy_into_target_loop (A : Arch) (E : Env R) (dest : Nat) (src : Nat → Nat) :
    Nat → Nat → State R → Int × State R
  | 0, _, s => (1, s)
  | k + 1, i, s =>
    let q := ptrace_POKETEXT E (dest + i * A.sizeof_long) (src i) s
    if q.1 = -1 then (0, q.2)
    else memcpy_into_target_loop A E dest src k (i + 1) q.2

/-- Function `memcpy_into_target(pid, dest, src, n)`: `dest` is a target address,
`src` a local buffer.  The `int` counter is a natural number here. -/
def memcpy_into_target (A : Arch) (E : Env R) (dest : Nat) (src : Nat → Nat) (n : Nat)
    (s : State R) : Int × State R :=
  memcpy_into_target_loop A E dest src (n / A.sizeof_long) 0 s

/-- The loop of `memcpy_from_target`, with `k` iterations left and counter `i`;
`d[i]` is assigned before `errno` is tested. -/
def memcpy_from_target_loop (A : Arch) (E : Env R) (src : Nat) :
    Nat → Nat → (Nat → Nat) → State R → Int × (Nat → Nat) × State R
  | 0, _, d, s => (1, d, s)
  | k + 1, i, d, s =>
    let p := ptrace_PEEKTEXT A E (src + i * A.sizeof_long) s
    if p.2.errno ≠ 0 then (0, Function.update d i p.1, p.2)
    else memcpy_from_target_loop A E src k (i + 1) (Function.update d i p.1) p.2

/-- Function `memcpy_from_target(pid, dest, src, n)`: `dest` is a local buffer,
`src` a target address; the buffer as left by the call is returned as well. -/
def memcpy_from_target (A : Arch) (E : Env R) (dest : Nat → Nat) (src : Nat) (n : Nat)
    (s : State R) : Int × (Nat → Nat) × State R :=
  memcpy_from_target_loop A E src (n / A.sizeof_long) 0 dest s

end Pages

section Orchestration

variable {R : Type}

/-- One operation of the capture orchestrator, as recorded in its trace.  The
flags say how the operation ended: a request that succeeded, a fetcher that
returned to its caller, a `backup_page` that returned a page. -/
inductive Op (R : Type) where
  | PTRACE_ATTACH (ok : Bool)
  | waitpid (ok : Bool)
  | save_registers (rc : Int) (r : R)
  | fetch_chunks_vma (returned : Bool)
  | backup_page (ok : Bool)
  | fetch_chunks_fd (returned : Bool)
  | fetch_chunks_sighand (returned : Bool)
  | fetch_chunks_regs (returned : Bool)
  | restore_page
  | restore_registers (r : R)
  | PTRACE_DETACH (ok : Bool)
  deriving DecidableEq

/-- Whether the operation is a `PTRACE_DETACH` request. -/
def Op.isDetach : Op R → Bool
  | .PTRACE_DETACH _ => true
  | _ => false

/-- Whether the process ended inside the operation: a failed attach or wait in
`start_ptrace` (both call `exit(1)`), or a fetcher that did not return. -/
def Op.endedInside : Op R → Bool
  | .PTRACE_ATTACH ok => !ok
  | .waitpid ok => !ok
  | .fetch_chunks_vma r => !r
  | .fetch_chunks_fd r => !r
  | .fetch_chunks_sighand r => !r
  | .fetch_chunks_regs r => !r
  | _ => false

/-- The chunk fetchers, which live outside these files: each one acts on the
state in some way and returns, or ends the process. -/
structure Fetchers (R : Type) where
  fetch_chunks_vma : State R → Result (State R) Unit
  fetch_chunks_fd : State R → Result (State R) Unit
  fetch_chunks_sighand : State R → Result (State R) Unit
  fetch_chunks_regs : Int → State R → Result (State R) Unit

/-- A run of the orchestrator: how it ended, and the operations it performed. -/
abbrev Run (R : Type) := Result (State R) Unit × List (Op R)

/-- Record operation `o` in front of the rest of the run. -/
def traced (o : Op R) (r : Run R) : Run R := (r.1, o :: r.2)

/-- Call a fetcher and go on with `k` when it returns. -/
def call (o : Bool → Op R) (f : State R → Result (State R) Unit) (s : State R)
    (k : State R → Run R) : Run R :=
  match f s with
  | .ret _ s1 => traced (o true) (k s1)
  | .exit c s1 => (.exit c s1, [o false])
  | .abort s1 => (.abort s1, [o false])

/-- Function `process_is_stopped(pid)`: `-1` when the stat file cannot be opened,
else whether the mode character is `T`. -/
def process_is_stopped (E : Env R) : Int :=
  match E.stat_mode with
  | none => -1
  | some c => if c = 'T' then 1 else 0

/-- Function `start_ptrace(pid)`, followed by `k` when it returns. -/
def start_ptrace (E : Env R) (s : State R) (k : State R → Run R) : Run R :=
  let s0 := { s with process_was_stopped := process_is_stopped E }
  let a := ptrace_plain E s0
  if a.1 = -1 then (.exit 1 a.2, [.PTRACE_ATTACH false])
  else traced (.PTRACE_ATTACH true) <|
    if a.2.process_was_stopped ≠ 0 then k a.2
    else
      let w := waitpid E a.2
      if w.1 = -1 then (.exit 1 w.2.2, [.waitpid false])
      else traced (.waitpid true) (k w.2.2)

/-- Function `end_ptrace(pid)`, followed by `k` when it returns. -/
def end_ptrace (E : Env R) (s : State R) (k : State R → Run R) : Run R :=
  let d := ptrace_plain E s
  if d.1 = -1 then (.exit 1 d.2, [.PTRACE_DETACH false])
  else traced (.PTRACE_DETACH true) (k d.2)

/-- The code of `get_process` from the label `out_ptrace` on: `end_ptrace(pid)`,
then `abort()` unless `success` is set. -/
def out_ptrace (E : Env R) (success : Int) (s : State R) : Run R :=
  end_ptrace E s fun s1 => if success = 0 then (.abort s1, []) else (.ret () s1, [])

/-- Call `restore_page` and go on with `k` when it returns; its return value is
not used by the orchestrator. -/
def call_restore_page (A : Arch) (E : Env R) (addr : Nat) (page : Option (Nat → Nat))
    (s : State R) (k : State R → Run R) : Run R :=
  match restore_page A E addr page s with
  | .ret _ s1 => traced .restore_page (k s1)
  | .exit c s1 => (.exit c s1, [.restore_page])
  | .abort s1 => (.abort s1, [.restore_page])

/-- Whether a trace ends in the one place it may: no operation but the last is a
`PTRACE_DETACH` or one inside which the process ended, and the last operation is
a `PTRACE_DETACH` or one inside which the process ended. -/
def detachDiscipline : List (Op R) → Bool
  | [] => false
  | [o] => o.isDetach || o.endedInside
  | o :: rest => !o.isDetach && !o.endedInside && detachDiscipline rest

/-- The property shown of every part of the orchestrator: unless a `backup_page`
that returned no page is in the trace, the trace is disciplined. -/
def Disciplined (r : Run R) : Prop :=
  Op.backup_page false ∉ r.2 → detachDiscipline r.2 = true

/-- The fetchers return to their caller from every state. -/
def Fetchers.returns (F : Fetchers R) : Prop :=
  (∀ s, (F.fetch_chunks_vma s).returned = true) ∧
  (∀ s, (F.fetch_chunks_fd s).returned = true) ∧
  (∀ s, (F.fetch_chunks_sighand s).returned = true) ∧
  (∀ w s, (F.fetch_chunks_regs w s).returned = true)

/-- The operations of `start_ptrace` when its requests succeed: the attach, and
the wait unless the target was already stopped. -/
def start_ops (E : Env R) : List (Op R) :=
  if process_is_stopped E ≠ 0 then [.PTRACE_ATTACH true]
  else [.PTRACE_ATTACH true, .waitpid true]

end Orchestration

/-- Conversion of an `int` to `unsigned long` on x86-64. -/
def u64 (x : Int) : Nat := (x % 2 ^ 64).toNat

/-- Conversion of an `unsigned long` to `int`: the low 32 bits, signed. -/
def toInt32 (x : Nat) : Int :=
  if x % 2 ^ 32 < 2 ^ 31 then (x % 2 ^ 32 : Nat) else (x % 2 ^ 32 : Nat) - 2 ^ 32

namespace x86_64

/-- The register file `struct user_regs_struct` of `<linux/user.h>`; every field
is an `unsigned long`. -/
structure user_regs_struct where
  r15 : Nat
  r14 : Nat
  r13 : Nat
  r12 : Nat
  rbp : Nat
  rbx : Nat
  r11 : Nat
  r10 : Nat
  r9 : Nat
  r8 : Nat
  rax : Nat
  rcx : Nat
  rdx : Nat
  rsi : Nat
  rdi : Nat
  orig_rax : Nat
  rip : Nat
  cs : Nat
  eflags : Nat
  rsp : Nat
  ss : Nat
  fs_base : Nat
  gs_base : Nat
  ds : Nat
  es : Nat
  fs : Nat
  gs : Nat
  deriving DecidableEq

/-- State over the x86-64 register file. -/
abbrev St := State user_regs_struct

/-- Constants of the x86-64 backend: eight-byte `long`, 4096-byte pages, and the
poison word `0xdeadbeef` written by `backup_page`. -/
def arch : Arch := ⟨8, 4096, 0xdeadbeef⟩

/-- Function `save_registers(pid, r)`: returns `errno` on failure. -/
def save_registers (E : Env user_regs_struct) (r : user_regs_struct) (s : St) :
    Int × user_regs_struct × St :=
  let g := ptrace_GETREGS E r s
  if g.1 < 0 then (g.2.2.errno, g.2.1, g.2.2) else (0, g.2.1, g.2.2)

/-- Function `restore_registers(pid, r)`: returns `errno` on failure. -/
def restore_registers (E : Env user_regs_struct) (r : user_regs_struct) (s : St) :
    Int × St :=
  let g := ptrace_SETREGS E r s
  if g.1 < 0 then (g.2.errno, g.2) else (0, g.2)

/-- The register assignments of `__remote_syscall` (lines 315 and 330-338):
starting from a copy of `orig_regs`, the register file prepared for the call. -/
def syscall_regs (orig_regs : user_regs_struct) (loc : Nat) (syscall_no : Int)
    (use_rdi : Int) (rdi : Nat) (use_rsi : Int) (rsi : Nat) (use_rdx : Int) (rdx : Nat)
    (use_r10 : Int) (r10 : Nat) (use_r8 : Int) (r8 : Nat) : user_regs_struct :=
  let regs := orig_regs
  let regs := { regs with rax := u64 syscall_no }
  let regs := if use_rdi ≠ 0 then { regs with rdi := rdi } else regs
  let regs := if use_rsi ≠ 0 then { regs with rsi := rsi } else regs
  let regs := if use_rdx ≠ 0 then { regs with rdx := rdx } else regs
  let regs := if use_r10 ≠ 0 then { regs with r10 := r10 } else regs
  let regs := if use_r8 ≠ 0 then { regs with r8 := r8 } else regs
  { regs with rip := loc }

/-- Locals of `__remote_syscall` that are live after the registers are set. -/
structure Frame where
  orig_regs : user_regs_struct
  regs : user_regs_struct
  loc : Nat
  old_insn : Nat

/-- First part of `__remote_syscall` (lines 312-340): snapshot the registers, save
the landing word, write the trap word `0x050f`, commit the prepared registers. -/
def remote_syscall_setup (E : Env user_regs_struct) (syscall_no : Int)
    (use_rdi : Int) (rdi : Nat) (use_rsi : Int) (rsi : Nat) (use_rdx : Int) (rdx : Nat)
    (use_r10 : Int) (r10 : Nat) (use_r8 : Int) (r8 : Nat) (s : St) : Result St Frame :=
  let sv := save_registers E E.uninit_regs s
  if sv.1 < 0 then .abort sv.2.2
  else
    let orig_regs := sv.2.1
    let loc := sv.2.2.scribble_zone + 0x10
    let pk := ptrace_PEEKTEXT arch E loc sv.2.2
    if pk.2.errno ≠ 0 then .abort pk.2
    else
      let old_insn := pk.1
      let po := ptrace_POKETEXT E loc 0x050f pk.2
      if po.1 < 0 then .abort po.2
      else
        let regs := syscall_regs orig_regs loc syscall_no use_rdi rdi use_rsi rsi
          use_rdx rdx use_r10 r10 use_r8 r8
        let rr := restore_registers E regs po.2
        if rr.1 < 0 then .abort rr.2
        else .ret ⟨orig_regs, regs, loc, old_insn⟩ rr.2

/-- Second part of `__remote_syscall` (lines 342-373): step, wait, read the
registers, put the original registers and the landing word back, and translate
the result.  The field `rax` is unsigned, and so is the comparison `rax < 0`. -/
def remote_syscall_finish (E : Env user_regs_struct) (f : Frame) (s : St) :
    Result St Nat :=
  let st := ptrace_resume E s
  if st.1 < 0 then .abort st.2
  else
    let w := waitpid E st.2
    if w.1 = -1 then .abort w.2.2
    else
      let sv := save_registers E f.regs w.2.2
      if sv.1 < 0 then .abort sv.2.2
      else
        let regs := sv.2.1
        let rr := restore_registers E f.orig_regs sv.2.2
        if rr.1 < 0 then .abort rr.2
        else
          let po := ptrace_POKETEXT E f.loc f.old_insn rr.2
          if po.1 < 0 then .abort po.2
          else if regs.rax < 0 then
            .ret arch.minus_one { po.2 with errno := toInt32 ((2 ^ 64 - regs.rax) % 2 ^ 64) }
          else .ret regs.rax po.2

/-- Function `__remote_syscall` of the x86-64 backend. -/
def __remote_syscall (E : Env user_regs_struct) (syscall_no : Int)
    (use_rdi : Int) (rdi : Nat) (use_rsi : Int) (rsi : Nat) (use_rdx : Int) (rdx : Nat)
    (use_r10 : Int) (r10 : Nat) (use_r8 : Int) (r8 : Nat) (s : St) : Result St Nat :=
  match remote_syscall_setup E syscall_no use_rdi rdi use_rsi rsi use_rdx rdx
      use_r10 r10 use_r8 r8 s with
  | .ret f s1 => remote_syscall_finish E f s1
  | .exit c s1 => .exit c s1
  | .abort s1 => .abort s1

/-- The system call number `__NR_mprotect` of x86-64. -/
def __NR_mprotect : Int := 10

/-- Function `r_mprotect(pid, start, len, flags)`: the wrapper generated by
`__rsyscall3(int, mprotect, ...)`, which casts the result of the engine to `int`. -/
def r_mprotect (E : Env user_regs_struct) (start len : Nat) (flags : Int) (s : St) :
    Result St Int :=
  match __remote_syscall E __NR_mprotect 1 start 1 len 1 (u64 flags) 0 0 0 0 s with
  | .ret v s1 => .ret (toInt32 v) s1
  | .exit c s1 => .exit c s1
  | .abort s1 => .abort s1

/-- Function `get_process` of the x86-64 backend. -/
def get_process (E : Env user_regs_struct) (F : Fetchers user_regs_struct) (s : St) :
    Run user_regs_struct :=
  start_ptrace E s fun s1 =>
    let sv := save_registers E E.uninit_regs s1
    let r := sv.2.1
    traced (.save_registers sv.1 r) <|
    if sv.1 < 0 then out_ptrace E 0 sv.2.2
    else
      call .fetch_chunks_vma F.fetch_chunks_vma sv.2.2 fun s2 =>
      if s2.scribble_zone = 0 then out_ptrace E 0 s2
      else
        let b := backup_page arch E s2.scribble_zone s2
        traced (.backup_page b.1.isSome) <|
        call .fetch_chunks_fd F.fetch_chunks_fd b.2 fun s3 =>
        call .fetch_chunks_sighand F.fetch_chunks_sighand s3 fun s4 =>
        call .fetch_chunks_regs (F.fetch_chunks_regs s4.process_was_stopped) s4 fun s5 =>
        call_restore_page arch E s5.scribble_zone b.1 s5 fun s6 =>
        let rr := restore_registers E r s6
        traced (.restore_registers r) (out_ptrace E 1 rr.2)

end x86_64

namespace sparc

/-- The register file `struct regs` of `<asm/reg.h>`; a field holds the bit
pattern of its value. -/
structure regs where
  r_psr : Nat
  r_pc : Nat
  r_npc : Nat
  r_y : Nat
  r_g1 : Nat
  r_g2 : Nat
  r_g3 : Nat
  r_g4 : Nat
  r_g5 : Nat
  r_g6 : Nat
  r_g7 : Nat
  r_o0 : Nat
  r_o1 : Nat
  r_o2 : Nat
  r_o3 : Nat
  r_o4 : Nat
  r_o5 : Nat
  r_o6 : Nat
  r_o7 : Nat
  deriving DecidableEq

/-- State over the SPARC register file. -/
abbrev St := State regs

/-- An `int` stored in a register field: its 32-bit pattern. -/
def reg_of_int (x : Int) : Nat := (x % 2 ^ 32).toNat

/-- The carry bit `PSR_C` of the processor state register, from `<asm/psr.h>`. -/
def PSR_C : Nat := 0x00100000

/-- The signal number `SIGTRAP`. -/
def SIGTRAP : Nat := 5

/-- The macro `WSTOPSIG(status)`. -/
def WSTOPSIG (status : Nat) : Nat := (status / 256) % 256

/-- Function `save_registers(pid, r)`: returns `-errno` on failure. -/
def save_registers (E : Env regs) (r : regs) (s : St) : Int × regs × St :=
  let g := ptrace_GETREGS E r s
  if g.1 < 0 then (-g.2.2.errno, g.2.1, g.2.2) else (0, g.2.1, g.2.2)

/-- Function `restore_registers(pid, r)`: returns `-errno` on failure. -/
def restore_registers (E : Env regs) (r : regs) (s : St) : Int × St :=
  let g := ptrace_SETREGS E r s
  if g.1 < 0 then (-g.2.errno, g.2) else (0, g.2)

/-- The register assignments of `__remote_syscall` (lines 264-275): starting from
a copy of `orig_regs`, the register file prepared for the call. -/
def syscall_regs (orig_regs : regs) (loc : Nat) (syscall_no : Int)
    (use_o0 : Int) (o0 : Nat) (use_o1 : Int) (o1 : Nat) (use_o2 : Int) (o2 : Nat)
    (use_o3 : Int) (o3 : Nat) (use_o4 : Int) (o4 : Nat) : regs :=
  let regs := orig_regs
  let regs := { regs with r_g1 := reg_of_int syscall_no }
  let regs := if use_o0 ≠ 0 then { regs with r_o0 := o0 } else regs
  let regs := if use_o1 ≠ 0 then { regs with r_o1 := o1 } else regs
  let regs := if use_o2 ≠ 0 then { regs with r_o2 := o2 } else regs
  let regs := if use_o3 ≠ 0 then { regs with r_o3 := o3 } else regs
  let regs := if use_o4 ≠ 0 then { regs with r_o4 := o4 } else regs
  let regs := { regs with r_pc := loc }
  { regs with r_npc := loc }

/-- Locals of `__remote_syscall` that are live after the registers are set. -/
structure Frame where
  orig_regs : regs
  regs : regs

/-- First part of `__remote_syscall` (lines 256-277): require `syscall_loc`,
snapshot the registers, commit the prepared registers. -/
def remote_syscall_setup (E : Env regs) (syscall_no : Int)
    (use_o0 : Int) (o0 : Nat) (use_o1 : Int) (o1 : Nat) (use_o2 : Int) (o2 : Nat)
    (use_o3 : Int) (o3 : Nat) (use_o4 : Int) (o4 : Nat) (s : St) : Result St Frame :=
  if s.syscall_loc = 0 then .abort s
  else
    let sv := save_registers E E.uninit_regs s
    if sv.1 < 0 then .abort sv.2.2
    else
      let orig_regs := sv.2.1
      let regs := syscall_regs orig_regs sv.2.2.syscall_loc syscall_no use_o0 o0 use_o1 o1
        use_o2 o2 use_o3 o3 use_o4 o4
      let rr := restore_registers E regs sv.2.2
      if rr.1 < 0 then .abort rr.2
      else .ret ⟨orig_regs, regs⟩ rr.2

/-- One `PTRACE_SYSCALL` request followed by `waitpid`; either failure aborts.
The value is the wait status. -/
def syscall_stop (E : Env regs) (s : St) : Result St Nat :=
  let st := ptrace_resume E s
  if st.1 < 0 then .abort st.2
  else
    let w := waitpid E st.2
    if w.1 = -1 then .abort w.2.2 else .ret w.2.1 w.2.2

/-- Last part of `__remote_syscall` (lines 325-353): the final syscall stop, the
register read-back, the restore of the original registers and the translation of
the result by the carry bit. -/
def remote_syscall_finish (A : Arch) (E : Env regs) (f : Frame) (s : St) :
    Result St Nat :=
  match syscall_stop E s with
  | .exit c s1 => .exit c s1
  | .abort s1 => .abort s1
  | .ret _ s1 =>
    let sv := save_registers E f.regs s1
    if sv.1 < 0 then .abort sv.2.2
    else
      let regs := sv.2.1
      let rr := restore_registers E f.orig_regs sv.2.2
      if rr.1 < 0 then .abort rr.2
      else if regs.r_psr &&& PSR_C ≠ 0 then
        .ret A.minus_one { rr.2 with errno := toInt32 regs.r_o0 }
      else .ret regs.r_o0 { rr.2 with errno := 0 }

/-- Middle part of `__remote_syscall` (lines 290-323): the first syscall stop and,
when its stop signal is not `SIGTRAP`, a diagnostic register read, the prepared
registers once more and a second syscall stop. -/
def remote_syscall_step (A : Arch) (E : Env regs) (f : Frame) (s : St) :
    Result St Nat :=
  match syscall_stop E s with
  | .exit c s1 => .exit c s1
  | .abort s1 => .abort s1
  | .ret status s1 =>
    if WSTOPSIG status ≠ SIGTRAP then
      let sv := save_registers E E.uninit_regs s1
      let rr := restore_registers E f.regs sv.2.2
      match syscall_stop E rr.2 with
      | .exit c s2 => .exit c s2
      | .abort s2 => .abort s2
      | .ret _ s2 => remote_syscall_finish A E f s2
    else remote_syscall_finish A E f s1

/-- Function `__remote_syscall` of the SPARC backend. -/
def __remote_syscall (A : Arch) (E : Env regs) (syscall_no : Int)
    (use_o0 : Int) (o0 : Nat) (use_o1 : Int) (o1 : Nat) (use_o2 : Int) (o2 : Nat)
    (use_o3 : Int) (o3 : Nat) (use_o4 : Int) (o4 : Nat) (s : St) : Result St Nat :=
  match remote_syscall_setup E syscall_no use_o0 o0 use_o1 o1 use_o2 o2
      use_o3 o3 use_o4 o4 s with
  | .ret f s1 => remote_syscall_step A E f s1
  | .exit c s1 => .exit c s1
  | .abort s1 => .abort s1

/-- Function `get_process` of the SPARC backend; the constants of the
architecture are the parameter `A`. -/
def get_process (A : Arch) (E : Env regs) (F : Fetchers regs) (s : St) : Run regs :=
  start_ptrace E s fun s1 =>
    let sv := save_registers E E.uninit_regs s1
    let r := sv.2.1
    traced (.save_registers sv.1 r) <|
    if sv.1 < 0 then out_ptrace E 0 sv.2.2
    else
      let s1a := { sv.2.2 with mysp := r.r_o6 }
      call .fetch_chunks_vma F.fetch_chunks_vma s1a fun s2 =>
      if s2.scribble_zone = 0 then
        let rr := restore_registers E r s2
        traced (.restore_registers r) (out_ptrace E 0 rr.2)
      else
        let b := backup_page A E s2.scribble_zone s2
        traced (.backup_page b.1.isSome) <|
        call .fetch_chunks_fd F.fetch_chunks_fd b.2 fun s3 =>
        call .fetch_chunks_regs (F.fetch_chunks_regs s3.process_was_stopped) s3 fun s4 =>
        call .fetch_chunks_sighand F.fetch_chunks_sighand s4 fun s5 =>
        call_restore_page A E s5.scribble_zone b.1 s5 fun s6 =>
        let rr := restore_registers E r s6
        traced (.restore_registers r) (out_ptrace E 1 rr.2)

end sparc

/-! ## Concrete kernels and states used to instantiate the theorems -/

namespace x86_64

/-- The register file with every register zero. -/
def regs0 : user_regs_struct :=
  ⟨0, 0, 0, 0, 0, 0, 0, 0, 0, 0, 0, 0, 0, 0, 0, 0, 0, 0, 0, 0, 0, 0, 0, 0, 0, 0, 0⟩

/-- A kernel in which every request succeeds, a resumed target executes a system
call that returns 0 and writes no memory, every wait reports a `SIGTRAP` stop,
and the target was running (mode `S`). -/
def env_ok : Env user_regs_struct where
  err := fun _ => 0
  resume := fun _ t => ({ t.1 with rax := 0, rip := t.1.rip + 2 }, t.2)
  status := fun _ => 0x057f
  peek_clears_errno := false
  stat_mode := some 'S'
  uninit_regs := regs0
  uninit_page := fun _ => 0

/-- A target whose word at address `a` is `a + 7`, with the scribble zone at
`0x1000` and a clear error indicator. -/
def state0 : St where
  regs := regs0
  mem := fun a => a + 7
  errno := 0
  tick := 0
  scribble_zone := 0x1000
  syscall_loc := 0
  process_was_stopped := 0
  mysp := 0

/-- Fetchers that return at once; the VMA fetcher publishes the scribble zone
`0x1000` and leaves the error indicator clear. -/
def fetchers_ok : Fetchers user_regs_struct where
  fetch_chunks_vma := fun s => .ret () { s with scribble_zone := 0x1000, errno := 0 }
  fetch_chunks_fd := fun s => .ret () s
  fetch_chunks_sighand := fun s => .ret () s
  fetch_chunks_regs := fun _ s => .ret () s

/-- Fetchers whose VMA fetcher finds no scribble zone; it returns with the global
unset and, having disturbed the target, with `rax` changed to 1. -/
def fetchers_no_zone : Fetchers user_regs_struct where
  fetch_chunks_vma := fun s =>
    .ret () { s with scribble_zone := 0, regs := { s.regs with rax := 1 } }
  fetch_chunks_fd := fun s => .ret () s
  fetch_chunks_sighand := fun s => .ret () s
  fetch_chunks_regs := fun _ s => .ret () s

/-- The kernel `env_ok`, except that request number `k` fails with `ESRCH`. -/
def env_fail (k : Nat) : Env user_regs_struct :=
  { env_ok with err := fun n => if n = k then 3 else 0 }

/-- The kernel `env_ok`, except that the system call executed by the resumed
target returns `-ENOMEM`, that is `-12`. -/
def env_enomem : Env user_regs_struct :=
  { env_ok with resume := fun _ t => ({ t.1 with rax := 2 ^ 64 - 12, rip := t.1.rip + 2 }, t.2) }

end x86_64

namespace sparc

/-- The register file with every register zero. -/
def regs0 : regs := ⟨0, 0, 0, 0, 0, 0, 0, 0, 0, 0, 0, 0, 0, 0, 0, 0, 0, 0, 0⟩

/-- Constants of a 32-bit SPARC: four-byte `long`, 4096-byte pages, and a poison
word. -/
def arch32 : Arch := ⟨4, 4096, 0xdeadbeef⟩

/-- A kernel in which every request succeeds, a resumed target executes a system
call that returns 0 and writes no memory, every wait reports a `SIGTRAP` stop,
and the target was running (mode `S`). -/
def env_ok : Env regs where
  err := fun _ => 0
  resume := fun _ t => ({ t.1 with r_o0 := 0, r_pc := t.1.r_npc, r_npc := t.1.r_npc + 4 }, t.2)
  status := fun _ => 0x057f
  peek_clears_errno := false
  stat_mode := some 'S'
  uninit_regs := regs0
  uninit_page := fun _ => 0

/-- Fetchers that return at once; the VMA fetcher publishes the scribble zone
`0x1000` and leaves the error indicator clear. -/
def fetchers_ok : Fetchers regs where
  fetch_chunks_vma := fun s => .ret () { s with scribble_zone := 0x1000, errno := 0 }
  fetch_chunks_fd := fun s => .ret () s
  fetch_chunks_sighand := fun s => .ret () s
  fetch_chunks_regs := fun _ s => .ret () s

/-- Fetchers whose VMA fetcher finds no scribble zone; it returns with the global
unset and, having disturbed the target, with `o0` changed to 1. -/
def fetchers_no_zone : Fetchers regs where
  fetch_chunks_vma := fun s =>
    .ret () { s with scribble_zone := 0, regs := { s.regs with r_o0 := 1 } }
  fetch_chunks_fd := fun s => .ret () s
  fetch_chunks_sighand := fun s => .ret () s
  fetch_chunks_regs := fun _ s => .ret () s

/-- The kernel `env_ok`, except that request number `k` fails with `ESRCH`. -/
def env_fail (k : Nat) : Env regs :=
  { env_ok with err := fun n => if n = k then 3 else 0 }

/-- A target whose word at address `a` is `a + 7`, with the scribble zone at
`0x1000`, a trap instruction known at `0x2000` and a clear error indicator. -/
def state0 : St where
  regs := regs0
  mem := fun a => a + 7
  errno := 0
  tick := 0
  scribble_zone := 0x1000
  syscall_loc := 0x2000
  process_was_stopped := 0
  mysp := 0

/-- The kernel `env_ok`, except that every wait reports a stop by `SIGSTOP`
(signal 19) and never one by `SIGTRAP`. -/
def env_stops : Env regs :=
  { env_ok with status := fun _ => 0x137f }

/-- The target of a call whose first stop was not a `SIGTRAP` stop, after its
three resumptions: the one of the first step (request `t + 2`), the one of the
retry from the prepared registers `R1` (request `t + 6`) and the one of the last
step (request `t + 8`). -/
def retried_target (E : Env regs) (t : Nat) (R1 : regs) (mem : Nat → Nat) :
    regs × (Nat → Nat) :=
  E.resume (t + 8) (E.resume (t + 6) (R1, (E.resume (t + 2) (R1, mem)).2))

/-- The state `state0` with a stale error number, `EINVAL`, in `errno`. -/
def state_stale : St := { state0 with errno := 22 }

/-- The kernel `env_ok` with the C library resetting `errno` on a successful
peek, as the `ptrace` wrapper of glibc does. -/
def env_glibc : Env regs := { env_ok with peek_clears_errno := true }

end sparc

namespace x86_64

/-- The state `state0` with a stale error number, `EINVAL`, in `errno`. -/
def state_stale : St := { state0 with errno := 22 }

/-- The kernel `env_ok` with the C library resetting `errno` on a successful
peek, as the `ptrace` wrapper of glibc does. -/
def env_glibc : Env user_regs_struct := { env_ok with peek_clears_errno := true }

end x86_64

/-- The number of the `PTRACE_GETREGS` request of the register snapshot of
`get_process`, when `start_ptrace` has returned: the attach is request `s.tick`,
and the wait, made unless the target was already stopped, is the next one. -/
def snapshot_tick {R : Type} (E : Env R) (s : State R) : Nat :=
  if process_is_stopped E ≠ 0 then s.tick + 1 else s.tick + 2

/-! ## Page backup and restore, memory bridge -/

section PageProofs

variable {R : Type}

/-- Addresses a positive stride apart are distinct. -/
theorem stride_inj {W : Nat} (hW : 0 < W) {addr i j : Nat}
    (h : addr + i * W = addr + j * W) : i = j :=
  Nat.eq_of_mul_eq_mul_right hW (Nat.add_left_cancel h)

/-- A peek that leaves `errno` zero returned the word at the address and did
not touch the target. -/
theorem ptrace_PEEKTEXT_of_errno (A : Arch) (E : Env R) (addr : Nat) (s : State R)
    (h : (ptrace_PEEKTEXT A E addr s).2.errno = 0) :
    (ptrace_PEEKTEXT A E addr s).1 = s.mem addr ∧
    (ptrace_PEEKTEXT A E addr s).2.mem = s.mem ∧
    (ptrace_PEEKTEXT A E addr s).2.regs = s.regs := by
  unfold ptrace_PEEKTEXT at h ⊢
  by_cases he : E.err s.tick = 0
  · simp [he]
  · rw [if_neg he] at h
    simp only [State.failed] at h
    exact absurd (by exact_mod_cast h) he

/-- A poke that does not return `-1` stored the word and touched nothing else. -/
theorem ptrace_POKETEXT_of_ret (E : Env R) (addr data : Nat) (s : State R)
    (h : (ptrace_POKETEXT E addr data s).1 ≠ -1) :
    (ptrace_POKETEXT E addr data s).2.mem = Function.update s.mem addr data ∧
    (ptrace_POKETEXT E addr data s).2.regs = s.regs := by
  unfold ptrace_POKETEXT at h ⊢
  by_cases he : E.err s.tick = 0
  · simp [he]
  · simp [he] at h

/-- What a successful run of the loop of `backup_page` has done. -/
theorem backup_page_loop_spec (A : Arch) (E : Env R) (addr : Nat)
    (hW : 0 < A.sizeof_long) :
    ∀ (k i : Nat) (page : Nat → Nat) (s : State R) (page' : Nat → Nat) (s' : State R),
      backup_page_loop A E addr k i page s = (some page', s') →
      (∀ j, i ≤ j → j < i + k →
        page' j = s.mem (addr + j * A.sizeof_long) ∧
        s'.mem (addr + j * A.sizeof_long) = A.ARCH_POISON) ∧
      (∀ j, j < i → page' j = page j) ∧
      (∀ b, (∀ j, i ≤ j → j < i + k → b ≠ addr + j * A.sizeof_long) → s'.mem b = s.mem b) := by
  intro k
  induction k with
  | zero =>
    intro i page s page' s' h
    simp only [backup_page_loop, Prod.mk.injEq, Option.some.injEq] at h
    obtain ⟨rfl, rfl⟩ := h
    refine ⟨fun j h1 h2 => by omega, fun _ _ => rfl, fun _ _ => rfl⟩
  | succ k ih =>
    intro i page s page' s' h
    rw [backup_page_loop] at h
    dsimp only at h
    by_cases hz : (ptrace_PEEKTEXT A E (addr + i * A.sizeof_long) s).2.errno = 0
    · rw [if_neg (not_not.mpr hz)] at h
      obtain ⟨hp1, hp2, -⟩ := ptrace_PEEKTEXT_of_errno A E _ s hz
      by_cases hq : (ptrace_POKETEXT E (addr + i * A.sizeof_long) A.ARCH_POISON
          (ptrace_PEEKTEXT A E (addr + i * A.sizeof_long) s).2).1 = -1
      · rw [if_pos hq] at h
        exact absurd h (by simp)
      · rw [if_neg hq] at h
        obtain ⟨hq1, -⟩ := ptrace_POKETEXT_of_ret E _ _ _ hq
        obtain ⟨h1, h2, h3⟩ := ih _ _ _ _ _ h
        rw [hq1, hp2] at h1 h3
        rw [hp1] at h2
        refine ⟨?_, ?_, ?_⟩
        · intro j hj1 hj2
          by_cases hji : j = i
          · subst hji
            constructor
            · rw [h2 j (by omega)]; simp
            · rw [h3 _ (fun j' hj1' _ heq => by
                have := stride_inj hW heq; omega)]
              simp
          · obtain ⟨ha, hb⟩ := h1 j (by omega) (by omega)
            refine ⟨?_, hb⟩
            rw [ha, Function.update_noteq]
            intro heq
            exact hji (stride_inj hW heq)
        · intro j hj
          rw [h2 j (by omega), Function.update_noteq (by omega)]
        · intro b hb
          rw [h3 b (fun j hj1 hj2 => hb j (by omega) (by omega))]
          rw [Function.update_noteq (hb i (le_refl _) (by omega))]
    · rw [if_pos hz] at h
      exact absurd h (by simp)

/-- What a successful run of the loop of `memcpy_into_target` has done. -/
theorem memcpy_into_target_loop_spec (A : Arch) (E : Env R) (dest : Nat) (src : Nat → Nat)
    (hW : 0 < A.sizeof_long) :
    ∀ (k i : Nat) (s s' : State R),
      memcpy_into_target_loop A E dest src k i s = (1, s') →
      (∀ j, i ≤ j → j < i + k → s'.mem (dest + j * A.sizeof_long) = src j) ∧
      (∀ b, (∀ j, i ≤ j → j < i + k → b ≠ dest + j * A.sizeof_long) → s'.mem b = s.mem b) := by
  intro k
  induction k with
  | zero =>
    intro i s s' h
    simp only [memcpy_into_target_loop, Prod.mk.injEq, true_and] at h
    subst h
    exact ⟨fun j h1 h2 => by omega, fun _ _ => rfl⟩
  | succ k ih =>
    intro i s s' h
    rw [memcpy_into_target_loop] at h
    by_cases hq : (ptrace_POKETEXT E (dest + i * A.sizeof_long) (src i) s).1 = -1
    · rw [if_pos hq] at h
      exact absurd h (by simp)
    · rw [if_neg hq] at h
      obtain ⟨hq1, -⟩ := ptrace_POKETEXT_of_ret E _ _ _ hq
      obtain ⟨h1, h3⟩ := ih _ _ _ h
      rw [hq1] at h3
      refine ⟨?_, ?_⟩
      · intro j hj1 hj2
        by_cases hji : j = i
        · subst hji
          rw [h3 _ (fun j' hj1' _ heq => by
            have := stride_inj hW heq; omega)]
          simp
        · exact h1 j (by omega) (by omega)
      · intro b hb
        rw [h3 b (fun j hj1 hj2 => hb j (by omega) (by omega))]
        rw [Function.update_noteq (hb i (le_refl _) (by omega))]

/-- The loops of `restore_page` and `memcpy_into_target` are the same loop. -/
theorem restore_page_loop_eq (A : Arch) (E : Env R) (addr : Nat) (p : Nat → Nat) :
    ∀ (k i : Nat) (s : State R),
      restore_page_loop A E addr p k i s = memcpy_into_target_loop A E addr p k i s := by
  intro k
  induction k with
  | zero => intro i s; rfl
  | succ k ih =>
    intro i s
    rw [restore_page_loop, memcpy_into_target_loop]
    rw [ih]

/-- What a successful run of the loop of `memcpy_from_target` has done. -/
theorem memcpy_from_target_loop_spec (A : Arch) (E : Env R) (src : Nat) :
    ∀ (k i : Nat) (d : Nat → Nat) (s : State R) (d' : Nat → Nat) (s' : State R),
      memcpy_from_target_loop A E src k i d s = (1, d', s') →
      (∀ j, i ≤ j → j < i + k → d' j = s.mem (src + j * A.sizeof_long)) ∧
      (∀ j, j < i → d' j = d j) ∧ s'.mem = s.mem := by
  intro k
  induction k with
  | zero =>
    intro i d s d' s' h
    simp only [memcpy_from_target_loop, Prod.mk.injEq, true_and] at h
    obtain ⟨rfl, rfl⟩ := h
    exact ⟨fun j h1 h2 => by omega, fun _ _ => rfl, rfl⟩
  | succ k ih =>
    intro i d s d' s' h
    rw [memcpy_from_target_loop] at h
    by_cases hz : (ptrace_PEEKTEXT A E (src + i * A.sizeof_long) s).2.errno = 0
    · rw [if_neg (not_not.mpr hz)] at h
      obtain ⟨hp1, hp2, -⟩ := ptrace_PEEKTEXT_of_errno A E _ s hz
      obtain ⟨h1, h2, h3⟩ := ih _ _ _ _ _ h
      rw [hp2] at h1 h3
      rw [hp1] at h2
      refine ⟨?_, ?_, h3⟩
      · intro j hj1 hj2
        by_cases hji : j = i
        · subst hji
          rw [h2 j (by omega)]; simp
        · exact h1 j (by omega) (by omega)
      · intro j hj
        rw [h2 j (by omega), Function.update_noteq (by omega)]
    · rw [if_pos hz] at h
      exact absurd h (by simp)

/-- With every request succeeding and a clear error indicator, the loop of
`backup_page` runs to its end and returns a page. -/
theorem backup_page_loop_ok (A : Arch) (E : Env R) (addr : Nat)
    (hall : ∀ n, E.err n = 0) :
    ∀ (k i : Nat) (page : Nat → Nat) (s : State R),
      (s.errno = 0 ∨ E.peek_clears_errno = true) →
      (backup_page_loop A E addr k i page s).1.isSome = true := by
  intro k
  induction k with
  | zero => intro i page s _; rfl
  | succ k ih =>
    intro i page s hc
    have hz : (ptrace_PEEKTEXT A E (addr + i * A.sizeof_long) s).2.errno = 0 := by
      simp only [ptrace_PEEKTEXT, hall, if_true]
      rcases hc with hc | hc
      · simp [hc]
      · simp [hc]
    rw [backup_page_loop]
    dsimp only
    rw [if_neg (not_not.mpr hz)]
    have hq : (ptrace_POKETEXT E (addr + i * A.sizeof_long) A.ARCH_POISON
        (ptrace_PEEKTEXT A E (addr + i * A.sizeof_long) s).2).1 ≠ -1 := by
      simp [ptrace_POKETEXT, hall]
    rw [if_neg hq]
    apply ih
    left
    simp only [ptrace_POKETEXT, hall, if_true]
    exact hz

/-- With every request succeeding the loop of `memcpy_into_target` returns 1. -/
theorem memcpy_into_target_loop_ok (A : Arch) (E : Env R) (dest : Nat) (src : Nat → Nat)
    (hall : ∀ n, E.err n = 0) :
    ∀ (k i : Nat) (s : State R), (memcpy_into_target_loop A E dest src k i s).1 = 1 := by
  intro k
  induction k with
  | zero => intro i s; rfl
  | succ k ih =>
    intro i s
    rw [memcpy_into_target_loop]
    have hq : (ptrace_POKETEXT E (dest + i * A.sizeof_long) (src i) s).1 ≠ -1 := by
      simp [ptrace_POKETEXT, hall]
    rw [if_neg hq]
    apply ih

/-- With every request succeeding and a clear error indicator, the loop of
`memcpy_from_target` returns 1. -/
theorem memcpy_from_target_loop_ok (A : Arch) (E : Env R) (src : Nat)
    (hall : ∀ n, E.err n = 0) :
    ∀ (k i : Nat) (d : Nat → Nat) (s : State R),
      (s.errno = 0 ∨ E.peek_clears_errno = true) →
      (memcpy_from_target_loop A E src k i d s).1 = 1 := by
  intro k
  induction k with
  | zero => intro i d s _; rfl
  | succ k ih =>
    intro i d s hc
    have hz : (ptrace_PEEKTEXT A E (src + i * A.sizeof_long) s).2.errno = 0 := by
      simp only [ptrace_PEEKTEXT, hall, if_true]
      rcases hc with hc | hc
      · simp [hc]
      · simp [hc]
    rw [memcpy_from_target_loop]
    rw [if_neg (not_not.mpr hz)]
    exact ih _ _ _ (Or.inl hz)

/-- With every request succeeding and a clear error indicator, `backup_page`
returns a page. -/
theorem backup_page_ok (A : Arch) (E : Env R) (addr : Nat) (s : State R)
    (hall : ∀ n, E.err n = 0) (hc : s.errno = 0 ∨ E.peek_clears_errno = true) :
    ∃ page s', backup_page A E addr s = (some page, s') := by
  have hs : (backup_page A E addr s).1.isSome = true :=
    backup_page_loop_ok A E addr hall _ _ _ _ hc
  obtain ⟨page, hp⟩ := Option.isSome_iff_exists.mp hs
  exact ⟨page, (backup_page A E addr s).2, Prod.ext hp rfl⟩

/-- With every request succeeding, `restore_page` of a page returns 1. -/
theorem restore_page_ok (A : Arch) (E : Env R) (addr : Nat) (b : Nat → Nat) (s : State R)
    (hall : ∀ n, E.err n = 0) :
    ∃ s', restore_page A E addr (some b) s = .ret 1 s' := by
  refine ⟨(restore_page_loop A E addr b (A.PAGE_SIZE / A.sizeof_long) 0 s).2, ?_⟩
  simp only [restore_page, Result.ret.injEq, and_true]
  rw [restore_page_loop_eq]
  exact memcpy_into_target_loop_ok A E addr b hall _ _ _

/-- With every request succeeding, `memcpy_into_target` returns 1. -/
theorem memcpy_into_target_ok (A : Arch) (E : Env R) (dest : Nat) (src : Nat → Nat)
    (n : Nat) (s : State R) (hall : ∀ n, E.err n = 0) :
    ∃ s', memcpy_into_target A E dest src n s = (1, s') :=
  ⟨(memcpy_into_target A E dest src n s).2,
    Prod.ext (memcpy_into_target_loop_ok A E dest src hall _ _ _) rfl⟩

/-- With every request succeeding and a clear error indicator,
`memcpy_from_target` returns 1. -/
theorem memcpy_from_target_ok (A : Arch) (E : Env R) (dest : Nat → Nat) (src : Nat)
    (n : Nat) (s : State R) (hall : ∀ n, E.err n = 0)
    (hc : s.errno = 0 ∨ E.peek_clears_errno = true) :
    ∃ d' s', memcpy_from_target A E dest src n s = (1, d', s') :=
  ⟨(memcpy_from_target A E dest src n s).2.1, (memcpy_from_target A E dest src n s).2.2,
    Prod.ext (memcpy_from_target_loop_ok A E src hall _ _ _ _ hc) rfl⟩

/-- What a successful `backup_page` has done to its buffer and to the target. -/
theorem backup_page_effect (A : Arch) (E : Env R) (addr : Nat) (s : State R)
    (page : Nat → Nat) (s' : State R)
    (h : backup_page A E addr s = (some page, s')) :
    (∀ i, i < A.PAGE_SIZE / A.sizeof_long →
      page i = s.mem (addr + i * A.sizeof_long) ∧
      s'.mem (addr + i * A.sizeof_long) = A.ARCH_POISON) ∧
    (∀ b, (∀ i, i < A.PAGE_SIZE / A.sizeof_long → b ≠ addr + i * A.sizeof_long) →
      s'.mem b = s.mem b) := by
  unfold backup_page at h
  rcases Nat.eq_zero_or_pos A.sizeof_long with hW | hW
  · rw [hW, Nat.div_zero] at h ⊢
    simp only [backup_page_loop, Prod.mk.injEq, Option.some.injEq] at h
    obtain ⟨-, rfl⟩ := h
    exact ⟨fun i hi => absurd hi (Nat.not_lt_zero _), fun _ _ => rfl⟩
  · obtain ⟨h1, -, h3⟩ := backup_page_loop_spec A E addr hW _ _ _ _ _ _ h
    exact ⟨fun i hi => h1 i (Nat.zero_le _) (by omega),
      fun b hb => h3 b (fun j _ hj => hb j (by omega))⟩

/-- C6: after a successful `backup_page(target, addr)`, word `i` of the returned
buffer is the word the target held at `addr + i*sizeof(long)` before the call,
each of those target words now holds the poison word, and no target word outside
the page has changed; this for every `i < PAGE_SIZE / sizeof(long)` and for the
constants of either backend (the poison word is `0xdeadbeef` on x86-64). -/
theorem backup_page_spec (A : Arch) (E : Env R) (addr : Nat) (s : State R)
    (page : Nat → Nat) (s' : State R)
    (h : backup_page A E addr s = (some page, s')) :
    ((∀ i, i < A.PAGE_SIZE / A.sizeof_long →
      page i = s.mem (addr + i * A.sizeof_long) ∧
      s'.mem (addr + i * A.sizeof_long) = A.ARCH_POISON) ∧
    (∀ b, (∀ i, i < A.PAGE_SIZE / A.sizeof_long → b ≠ addr + i * A.sizeof_long) →
      s'.mem b = s.mem b)) ∧
    x86_64.arch.ARCH_POISON = 0xdeadbeef :=
  ⟨backup_page_effect A E addr s page s' h, rfl⟩

/-- Instance of C6 on x86-64: the page at `0x1000` of `state0` is backed up, the
buffer holds the old words and the 512 target words hold `0xdeadbeef`. -/
theorem backup_page_spec_witness :
    ∃ page s', backup_page x86_64.arch x86_64.env_ok 0x1000 x86_64.state0 = (some page, s') ∧
      ∀ i, i < 512 → page i = 0x1000 + i * 8 + 7 ∧ s'.mem (0x1000 + i * 8) = 0xdeadbeef := by
  obtain ⟨page, s', h⟩ := backup_page_ok x86_64.arch x86_64.env_ok 0x1000 x86_64.state0
    (fun _ => rfl) (Or.inl rfl)
  exact ⟨page, s', h,
    (backup_page_spec x86_64.arch x86_64.env_ok 0x1000 x86_64.state0 page s' h).1.1⟩

/-- C7: if `backup_page(target, addr)` returns the buffer `b` and
`restore_page(target, addr, b)` then returns 1, with the target memory in between
as the backup left it, the memory of the target is what it was before
`backup_page`: the words of the page and the words outside it alike. -/
theorem backup_restore_round_trip (A : Arch) (E : Env R) (addr : Nat)
    (s s1 s2 s3 : State R) (b : Nat → Nat)
    (hb : backup_page A E addr s = (some b, s1))
    (hmem : s2.mem = s1.mem)
    (hr : restore_page A E addr (some b) s2 = .ret 1 s3) :
    s3.mem = s.mem := by
  obtain ⟨hb1, hb2⟩ := backup_page_effect A E addr s b s1 hb
  simp only [restore_page, Result.ret.injEq] at hr
  have hr' : memcpy_into_target_loop A E addr b (A.PAGE_SIZE / A.sizeof_long) 0 s2 = (1, s3) := by
    rw [← restore_page_loop_eq]
    exact Prod.ext hr.1 hr.2
  rcases Nat.eq_zero_or_pos A.sizeof_long with hW | hW
  · rw [hW, Nat.div_zero] at hr' hb2
    simp only [memcpy_into_target_loop, Prod.mk.injEq, true_and] at hr'
    subst hr'
    funext a
    rw [hmem]
    exact hb2 a (fun i hi => absurd hi (Nat.not_lt_zero _))
  · obtain ⟨h1, h3⟩ := memcpy_into_target_loop_spec A E addr b hW _ _ _ _ hr'
    funext a
    by_cases ha : ∃ i, i < A.PAGE_SIZE / A.sizeof_long ∧ a = addr + i * A.sizeof_long
    · obtain ⟨i, hi, rfl⟩ := ha
      rw [h1 i (Nat.zero_le _) (by omega)]
      exact (hb1 i hi).1
    · have ha' : ∀ i, i < A.PAGE_SIZE / A.sizeof_long → a ≠ addr + i * A.sizeof_long :=
        fun i hi heq => ha ⟨i, hi, heq⟩
      rw [h3 a (fun j _ hj => ha' j (by omega)), hmem]
      exact hb2 a ha'

/-- Instance of C7 on x86-64: backing up and restoring the page at `0x1000` of
`state0` leaves the memory as it was. -/
theorem backup_restore_round_trip_witness :
    ∃ b s1 s3, backup_page x86_64.arch x86_64.env_ok 0x1000 x86_64.state0 = (some b, s1) ∧
      restore_page x86_64.arch x86_64.env_ok 0x1000 (some b) s1 = .ret 1 s3 ∧
      s3.mem = x86_64.state0.mem := by
  obtain ⟨b, s1, h⟩ := backup_page_ok x86_64.arch x86_64.env_ok 0x1000 x86_64.state0
    (fun _ => rfl) (Or.inl rfl)
  obtain ⟨s3, hr⟩ := restore_page_ok x86_64.arch x86_64.env_ok 0x1000 b s1 (fun _ => rfl)
  exact ⟨b, s1, s3, h, hr,
    backup_restore_round_trip x86_64.arch x86_64.env_ok 0x1000 x86_64.state0 s1 s1 s3 b
      h rfl hr⟩

/-- C5: if `memcpy_into_target(pid, a, src, n)` returns 1 and, with the target
memory unchanged in between, `memcpy_from_target(pid, dst, a, n)` returns 1, the
first `n / sizeof(long)` words of `dst` are those of `src`, and the write has left
every target word other than those `n / sizeof(long)` words at `a` unchanged. -/
theorem memcpy_round_trip (A : Arch) (E : Env R) (a : Nat) (src dst : Nat → Nat) (n : Nat)
    (s s1 s2 s3 : State R) (dst' : Nat → Nat)
    (hinto : memcpy_into_target A E a src n s = (1, s1))
    (hmem : s2.mem = s1.mem)
    (hfrom : memcpy_from_target A E dst a n s2 = (1, dst', s3)) :
    (∀ i, i < n / A.sizeof_long → dst' i = src i) ∧
    (∀ b, (∀ i, i < n / A.sizeof_long → b ≠ a + i * A.sizeof_long) → s1.mem b = s.mem b) := by
  unfold memcpy_into_target at hinto
  unfold memcpy_from_target at hfrom
  rcases Nat.eq_zero_or_pos A.sizeof_long with hW | hW
  · rw [hW, Nat.div_zero] at hinto ⊢
    simp only [memcpy_into_target_loop, Prod.mk.injEq, true_and] at hinto
    subst hinto
    exact ⟨fun i hi => absurd hi (Nat.not_lt_zero _), fun _ _ => rfl⟩
  · obtain ⟨h1, h3⟩ := memcpy_into_target_loop_spec A E a src hW _ _ _ _ hinto
    obtain ⟨g1, -, -⟩ := memcpy_from_target_loop_spec A E a _ _ _ _ _ _ hfrom
    refine ⟨fun i hi => ?_, fun b hb => h3 b (fun j _ hj => hb j (by omega))⟩
    rw [g1 i (Nat.zero_le _) (by omega), hmem]
    exact h1 i (Nat.zero_le _) (by omega)

/-- Instance of C5 on x86-64: 20 bytes, that is two whole words, copied to the
address `0x1100` of `state0` and read back. -/
theorem memcpy_round_trip_witness :
    ∃ s1 dst' s3,
      memcpy_into_target x86_64.arch x86_64.env_ok 0x1100 (fun i => 40 + i) 20 x86_64.state0
        = (1, s1) ∧
      memcpy_from_target x86_64.arch x86_64.env_ok (fun _ => 0) 0x1100 20 s1 = (1, dst', s3) ∧
      dst' 0 = 40 ∧ dst' 1 = 41 ∧ s1.mem 0x1110 = x86_64.state0.mem 0x1110 := by
  obtain ⟨s1, hinto⟩ := memcpy_into_target_ok x86_64.arch x86_64.env_ok 0x1100
    (fun i => 40 + i) 20 x86_64.state0 (fun _ => rfl)
  have he : s1.errno = 0 := by
    have := congrArg (fun r => r.2.errno) hinto
    simpa [memcpy_into_target, memcpy_into_target_loop, ptrace_POKETEXT, x86_64.env_ok,
      x86_64.arch, x86_64.state0] using this.symm
  obtain ⟨dst', s3, hfrom⟩ := memcpy_from_target_ok x86_64.arch x86_64.env_ok (fun _ => 0)
    0x1100 20 s1 (fun _ => rfl) (Or.inl he)
  have h := memcpy_round_trip x86_64.arch x86_64.env_ok 0x1100 (fun i => 40 + i)
    (fun _ => 0) 20 x86_64.state0 s1 s1 s3 dst' hinto rfl hfrom
  exact ⟨s1, dst', s3, hinto, hfrom, h.1 0 (by decide), h.1 1 (by decide),
    h.2 0x1110 (by decide)⟩

end PageProofs

/-! ## The remote system call engine -/

namespace x86_64

/-- C1: in a call of the x86-64 `__remote_syscall` in which every ptrace and
waitpid request succeeds, when the engine returns the register file of the
target is the snapshot taken at entry, the word at the landing address
`scribble_zone + 0x10` is the word read there before the trap word was written,
and every other target word is as the resumed target (the kernel-side effect of
the call) left it: the engine has written to no other word.  The engine does
return when the error indicator is clear at entry or is cleared by the peek. -/
theorem remote_syscall_frame (E : Env user_regs_struct) (syscall_no : Int)
    (use_rdi : Int) (rdi : Nat) (use_rsi : Int) (rsi : Nat) (use_rdx : Int) (rdx : Nat)
    (use_r10 : Int) (r10 : Nat) (use_r8 : Int) (r8 : Nat) (s : St)
    (hall : ∀ n, E.err n = 0) :
    (∀ v s', __remote_syscall E syscall_no use_rdi rdi use_rsi rsi use_rdx rdx
        use_r10 r10 use_r8 r8 s = .ret v s' →
      s'.regs = s.regs ∧
      s'.mem (s.scribble_zone + 0x10) = s.mem (s.scribble_zone + 0x10) ∧
      ∀ a, a ≠ s.scribble_zone + 0x10 →
        s'.mem a = (E.resume (s.tick + 4)
          (syscall_regs s.regs (s.scribble_zone + 0x10) syscall_no use_rdi rdi use_rsi rsi
            use_rdx rdx use_r10 r10 use_r8 r8,
           Function.update s.mem (s.scribble_zone + 0x10) 0x050f)).2 a) ∧
    ((s.errno = 0 ∨ E.peek_clears_errno = true) →
      (__remote_syscall E syscall_no use_rdi rdi use_rsi rsi use_rdx rdx
        use_r10 r10 use_r8 r8 s).returned = true) := by
  simp [__remote_syscall, remote_syscall_setup, remote_syscall_finish, save_registers,
    restore_registers, ptrace_GETREGS, ptrace_SETREGS, ptrace_PEEKTEXT, ptrace_POKETEXT,
    ptrace_resume, waitpid, hall]
  have ht : s.tick + 1 + 1 + 1 + 1 = s.tick + 4 := by omega
  by_cases hc : E.peek_clears_errno = false ∧ ¬s.errno = 0
  · rw [if_pos hc]
    refine ⟨fun v s' h => by simp at h, fun h => ?_⟩
    rcases h with h | h
    · exact absurd h hc.2
    · rw [h] at hc
      exact absurd hc.1 (by simp)
  · rw [if_neg hc]
    refine ⟨fun v s' h => ?_, fun _ => rfl⟩
    simp only [Result.ret.injEq] at h
    obtain ⟨-, rfl⟩ := h
    simp only [ht, Function.update_same, true_and]
    intro a ha
    rw [Function.update_noteq ha]

/-- Instance of C1: a remote `lseek(0, 0, SEEK_CUR)` on `state0` with the kernel
`env_ok` returns, with the registers and the landing word `0x1010` as before. -/
theorem remote_syscall_frame_witness :
    (∀ n, env_ok.err n = 0) ∧
    ∃ v s', __remote_syscall env_ok 8 1 0 1 0 1 1 0 0 0 0 state0 = .ret v s' ∧
      s'.regs = state0.regs ∧ s'.mem 0x1010 = state0.mem 0x1010 :=
  ⟨fun _ => rfl, _, _, rfl,
    ((remote_syscall_frame env_ok 8 1 0 1 0 1 1 0 0 0 0 state0 (fun _ => rfl)).1 _ _ rfl).1,
    ((remote_syscall_frame env_ok 8 1 0 1 0 1 1 0 0 0 0 state0 (fun _ => rfl)).1 _ _ rfl).2.1⟩

/-- Counterexample to C2: when `PTRACE_SINGLESTEP` (request 4) fails, the engine
aborts with the trap word `0x050f` still at the landing address `0x1010`, where
the word `0x1017` was, and with the prepared program counter still in `rip`. -/
theorem remote_syscall_teardown_counterexample :
    (__remote_syscall (env_fail 4) 8 1 0 1 0 1 1 0 0 0 0 state0).aborted = true ∧
    (__remote_syscall (env_fail 4) 8 1 0 1 0 1 1 0 0 0 0 state0).state.mem 0x1010 = 0x050f ∧
    state0.mem 0x1010 = 0x1017 ∧
    (__remote_syscall (env_fail 4) 8 1 0 1 0 1 1 0 0 0 0 state0).state.regs.rip = 0x1010 ∧
    state0.regs.rip = 0 := by
  decide

/-- C2, amended: in the x86-64 `__remote_syscall`, once the trap word is written
and the prepared registers are committed, a failure of the step or of the wait
makes the engine abort at once with no teardown: after a failed step the target
still has the prepared registers and the trap word at the landing address, and
after a failed wait it is exactly as the resumed target left it.  When the step,
the wait, the post-call register read and the two teardown requests succeed, the
registers are reset to the entry snapshot and the landing word to `old_insn`
before the engine returns. -/
theorem remote_syscall_teardown (E : Env user_regs_struct) (syscall_no : Int)
    (use_rdi : Int) (rdi : Nat) (use_rsi : Int) (rsi : Nat) (use_rdx : Int) (rdx : Nat)
    (use_r10 : Int) (r10 : Nat) (use_r8 : Int) (r8 : Nat) (s : St)
    (h0 : E.err s.tick = 0) (h1 : E.err (s.tick + 1) = 0)
    (hc : s.errno = 0 ∨ E.peek_clears_errno = true)
    (h2 : E.err (s.tick + 2) = 0) (h3 : E.err (s.tick + 3) = 0) :
    (E.err (s.tick + 4) ≠ 0 →
      ∃ s', __remote_syscall E syscall_no use_rdi rdi use_rsi rsi use_rdx rdx
          use_r10 r10 use_r8 r8 s = .abort s' ∧
        s'.regs = syscall_regs s.regs (s.scribble_zone + 0x10) syscall_no use_rdi rdi
          use_rsi rsi use_rdx rdx use_r10 r10 use_r8 r8 ∧
        s'.mem = Function.update s.mem (s.scribble_zone + 0x10) 0x050f) ∧
    (E.err (s.tick + 4) = 0 → E.err (s.tick + 5) ≠ 0 →
      ∃ s', __remote_syscall E syscall_no use_rdi rdi use_rsi rsi use_rdx rdx
          use_r10 r10 use_r8 r8 s = .abort s' ∧
        (s'.regs, s'.mem) = E.resume (s.tick + 4)
          (syscall_regs s.regs (s.scribble_zone + 0x10) syscall_no use_rdi rdi
            use_rsi rsi use_rdx rdx use_r10 r10 use_r8 r8,
           Function.update s.mem (s.scribble_zone + 0x10) 0x050f)) ∧
    (E.err (s.tick + 4) = 0 → E.err (s.tick + 5) = 0 → E.err (s.tick + 6) = 0 →
      E.err (s.tick + 7) = 0 → E.err (s.tick + 8) = 0 →
      ∃ v s', __remote_syscall E syscall_no use_rdi rdi use_rsi rsi use_rdx rdx
          use_r10 r10 use_r8 r8 s = .ret v s' ∧
        s'.regs = s.regs ∧
        s'.mem (s.scribble_zone + 0x10) = s.mem (s.scribble_zone + 0x10)) := by
  have hc' : ¬(E.peek_clears_errno = false ∧ ¬s.errno = 0) := by
    rintro ⟨ha, hb⟩
    rcases hc with hc | hc
    · exact hb hc
    · rw [hc] at ha; exact absurd ha (by simp)
  have t2 : s.tick + 1 + 1 = s.tick + 2 := by omega
  have t3 : s.tick + 2 + 1 = s.tick + 3 := by omega
  have t4 : s.tick + 3 + 1 = s.tick + 4 := by omega
  have t5 : s.tick + 4 + 1 = s.tick + 5 := by omega
  have t6 : s.tick + 5 + 1 = s.tick + 6 := by omega
  have t7 : s.tick + 6 + 1 = s.tick + 7 := by omega
  have t8 : s.tick + 7 + 1 = s.tick + 8 := by omega
  refine ⟨fun h4 => ?_, fun h4 h5 => ?_, fun h4 h5 h6 h7 h8 => ?_⟩
  · simp [__remote_syscall, remote_syscall_setup, remote_syscall_finish, save_registers,
      restore_registers, ptrace_GETREGS, ptrace_SETREGS, ptrace_PEEKTEXT, ptrace_POKETEXT,
      ptrace_resume, waitpid, State.failed, h0, h1, h2, h3, h4, hc', t2, t3, t4]
  · simp [__remote_syscall, remote_syscall_setup, remote_syscall_finish, save_registers,
      restore_registers, ptrace_GETREGS, ptrace_SETREGS, ptrace_PEEKTEXT, ptrace_POKETEXT,
      ptrace_resume, waitpid, State.failed, h0, h1, h2, h3, h4, h5, hc', t2, t3, t4, t5]
  · simp [__remote_syscall, remote_syscall_setup, remote_syscall_finish, save_registers,
      restore_registers, ptrace_GETREGS, ptrace_SETREGS, ptrace_PEEKTEXT, ptrace_POKETEXT,
      ptrace_resume, waitpid, State.failed, h0, h1, h2, h3, h4, h5, h6, h7, h8, hc',
      t2, t3, t4, t5, t6, t7, t8]
    exact ⟨_, _, ⟨rfl, rfl⟩, rfl, by simp⟩

/-- Instances of C2 as amended, on `state0`: a failing step (request 4), a
failing wait (request 5), and a run in which every request succeeds. -/
theorem remote_syscall_teardown_witness :
    (∃ s', __remote_syscall (env_fail 4) 8 1 0 1 0 1 1 0 0 0 0 state0 = .abort s' ∧
      s'.mem 0x1010 = 0x050f ∧ s'.regs.rip = 0x1010) ∧
    (∃ s', __remote_syscall (env_fail 5) 8 1 0 1 0 1 1 0 0 0 0 state0 = .abort s' ∧
      s'.mem 0x1010 = 0x050f ∧ s'.regs.rip = 0x1012) ∧
    (∃ v s', __remote_syscall env_ok 8 1 0 1 0 1 1 0 0 0 0 state0 = .ret v s' ∧
      s'.regs = state0.regs ∧ s'.mem 0x1010 = state0.mem 0x1010) := by
  refine ⟨?_, ?_, ?_⟩
  · obtain ⟨s', h, hr, hm⟩ := (remote_syscall_teardown (env_fail 4) 8 1 0 1 0 1 1 0 0 0 0
      state0 (by decide) (by decide) (Or.inl rfl) (by decide) (by decide)).1 (by decide)
    exact ⟨s', h, by rw [hm]; decide, by rw [hr]; decide⟩
  · obtain ⟨s', h, hr⟩ := (remote_syscall_teardown (env_fail 5) 8 1 0 1 0 1 1 0 0 0 0
      state0 (by decide) (by decide) (Or.inl rfl) (by decide) (by decide)).2.1
      (by decide) (by decide)
    have h1 := congrArg (fun p => p.2 0x1010) hr
    have h2 := congrArg (fun p => p.1.rip) hr
    exact ⟨s', h, h1, h2⟩
  · exact (remote_syscall_teardown env_ok 8 1 0 1 0 1 1 0 0 0 0
      state0 rfl rfl (Or.inl rfl) rfl rfl).2.2 rfl rfl rfl rfl rfl

end x86_64

/-- The prepared x86-64 register file, register by register. -/
theorem x86_64.prepared_user_regs_eq (R0 : x86_64.user_regs_struct) (loc : Nat) (syscall_no : Int)
    (use_rdi : Int) (rdi : Nat) (use_rsi : Int) (rsi : Nat) (use_rdx : Int) (rdx : Nat)
    (use_r10 : Int) (r10 : Nat) (use_r8 : Int) (r8 : Nat) :
    x86_64.syscall_regs R0 loc syscall_no use_rdi rdi use_rsi rsi use_rdx rdx
      use_r10 r10 use_r8 r8 =
    { R0 with
      rax := u64 syscall_no
      rdi := if use_rdi ≠ 0 then rdi else R0.rdi
      rsi := if use_rsi ≠ 0 then rsi else R0.rsi
      rdx := if use_rdx ≠ 0 then rdx else R0.rdx
      r10 := if use_r10 ≠ 0 then r10 else R0.r10
      r8 := if use_r8 ≠ 0 then r8 else R0.r8
      rip := loc } := by
  unfold x86_64.syscall_regs
  by_cases h1 : use_rdi = 0 <;> by_cases h2 : use_rsi = 0 <;> by_cases h3 : use_rdx = 0 <;>
    by_cases h4 : use_r10 = 0 <;> by_cases h5 : use_r8 = 0 <;>
    simp only [h1, h2, h3, h4, h5, ne_eq, not_true_eq_false, not_false_eq_true, if_true,
      if_false]

/-- The prepared SPARC register file, register by register. -/
theorem sparc.prepared_regs_eq (R0 : sparc.regs) (loc : Nat) (syscall_no : Int)
    (use_o0 : Int) (o0 : Nat) (use_o1 : Int) (o1 : Nat) (use_o2 : Int) (o2 : Nat)
    (use_o3 : Int) (o3 : Nat) (use_o4 : Int) (o4 : Nat) :
    sparc.syscall_regs R0 loc syscall_no use_o0 o0 use_o1 o1 use_o2 o2 use_o3 o3 use_o4 o4 =
    { R0 with
      r_g1 := sparc.reg_of_int syscall_no
      r_o0 := if use_o0 ≠ 0 then o0 else R0.r_o0
      r_o1 := if use_o1 ≠ 0 then o1 else R0.r_o1
      r_o2 := if use_o2 ≠ 0 then o2 else R0.r_o2
      r_o3 := if use_o3 ≠ 0 then o3 else R0.r_o3
      r_o4 := if use_o4 ≠ 0 then o4 else R0.r_o4
      r_pc := loc
      r_npc := loc } := by
  unfold sparc.syscall_regs
  by_cases h1 : use_o0 = 0 <;> by_cases h2 : use_o1 = 0 <;> by_cases h3 : use_o2 = 0 <;>
    by_cases h4 : use_o3 = 0 <;> by_cases h5 : use_o4 = 0 <;>
    simp only [h1, h2, h3, h4, h5, ne_eq, not_true_eq_false, not_false_eq_true, if_true,
      if_false]

/-- C3: the register file that `__remote_syscall` commits with `PTRACE_SETREGS`
before the step is the entry snapshot except that the syscall-number slot holds
the requested number, the program counter holds the landing address (`rip` is
`scribble_zone + 0x10` on x86-64; `pc` and `npc` are `syscall_loc` on SPARC), and
each of the five argument slots holds the supplied value if its use flag is
non-zero and the snapshot value otherwise; every other register is the
snapshot's.  The engine goes on to the step from the state so prepared. -/
theorem remote_syscall_registers :
    (∀ (E : Env x86_64.user_regs_struct) (syscall_no : Int)
      (use_rdi : Int) (rdi : Nat) (use_rsi : Int) (rsi : Nat) (use_rdx : Int) (rdx : Nat)
      (use_r10 : Int) (r10 : Nat) (use_r8 : Int) (r8 : Nat) (s s1 : x86_64.St)
      (f : x86_64.Frame),
      E.err s.tick = 0 → E.err (s.tick + 3) = 0 →
      x86_64.remote_syscall_setup E syscall_no use_rdi rdi use_rsi rsi use_rdx rdx
        use_r10 r10 use_r8 r8 s = .ret f s1 →
      f.orig_regs = s.regs ∧
      s1.regs = { s.regs with
        rax := u64 syscall_no
        rdi := if use_rdi ≠ 0 then rdi else s.regs.rdi
        rsi := if use_rsi ≠ 0 then rsi else s.regs.rsi
        rdx := if use_rdx ≠ 0 then rdx else s.regs.rdx
        r10 := if use_r10 ≠ 0 then r10 else s.regs.r10
        r8 := if use_r8 ≠ 0 then r8 else s.regs.r8
        rip := s.scribble_zone + 0x10 } ∧
      f.regs = s1.regs ∧
      x86_64.__remote_syscall E syscall_no use_rdi rdi use_rsi rsi use_rdx rdx
        use_r10 r10 use_r8 r8 s = x86_64.remote_syscall_finish E f s1) ∧
    (∀ (A : Arch) (E : Env sparc.regs) (syscall_no : Int)
      (use_o0 : Int) (o0 : Nat) (use_o1 : Int) (o1 : Nat) (use_o2 : Int) (o2 : Nat)
      (use_o3 : Int) (o3 : Nat) (use_o4 : Int) (o4 : Nat) (s s1 : sparc.St)
      (f : sparc.Frame),
      sparc.remote_syscall_setup E syscall_no use_o0 o0 use_o1 o1 use_o2 o2
        use_o3 o3 use_o4 o4 s = .ret f s1 →
      f.orig_regs = s.regs ∧
      s1.regs = { s.regs with
        r_g1 := sparc.reg_of_int syscall_no
        r_o0 := if use_o0 ≠ 0 then o0 else s.regs.r_o0
        r_o1 := if use_o1 ≠ 0 then o1 else s.regs.r_o1
        r_o2 := if use_o2 ≠ 0 then o2 else s.regs.r_o2
        r_o3 := if use_o3 ≠ 0 then o3 else s.regs.r_o3
        r_o4 := if use_o4 ≠ 0 then o4 else s.regs.r_o4
        r_pc := s.syscall_loc
        r_npc := s.syscall_loc } ∧
      f.regs = s1.regs ∧
      sparc.__remote_syscall A E syscall_no use_o0 o0 use_o1 o1 use_o2 o2
        use_o3 o3 use_o4 o4 s = sparc.remote_syscall_step A E f s1) := by
  constructor
  · intro E syscall_no use_rdi rdi use_rsi rsi use_rdx rdx use_r10 r10 use_r8 r8 s s1 f
      h0 h3 h
    have hs : x86_64.__remote_syscall E syscall_no use_rdi rdi use_rsi rsi use_rdx rdx
        use_r10 r10 use_r8 r8 s = x86_64.remote_syscall_finish E f s1 := by
      simp only [x86_64.__remote_syscall, h]
    have t2 : s.tick + 1 + 1 = s.tick + 2 := by omega
    have t3 : s.tick + 2 + 1 = s.tick + 3 := by omega
    by_cases h1 : E.err (s.tick + 1) = 0 <;> by_cases h2 : E.err (s.tick + 2) = 0 <;>
      simp [x86_64.remote_syscall_setup, x86_64.save_registers, x86_64.restore_registers,
        ptrace_GETREGS, ptrace_SETREGS, ptrace_PEEKTEXT, ptrace_POKETEXT, State.failed,
        h0, h1, h2, h3, t2, t3] at h
    all_goals
      split at h
      · simp at h
      · first
        | (simp only [Result.ret.injEq] at h
           obtain ⟨rfl, rfl⟩ := h
           exact ⟨rfl, x86_64.prepared_user_regs_eq _ _ _ _ _ _ _ _ _ _ _ _ _, rfl, hs⟩)
        | simp at h
  · intro A E syscall_no use_o0 o0 use_o1 o1 use_o2 o2 use_o3 o3 use_o4 o4 s s1 f h
    have hs : sparc.__remote_syscall A E syscall_no use_o0 o0 use_o1 o1 use_o2 o2
        use_o3 o3 use_o4 o4 s = sparc.remote_syscall_step A E f s1 := by
      simp only [sparc.__remote_syscall, h]
    have t2 : s.tick + 1 + 1 = s.tick + 2 := by omega
    by_cases hl : s.syscall_loc = 0 <;>
      rcases Nat.eq_zero_or_pos (E.err s.tick) with h0 | h0 <;>
      rcases Nat.eq_zero_or_pos (E.err (s.tick + 1)) with h1 | h1 <;>
      simp [sparc.remote_syscall_setup, sparc.save_registers, sparc.restore_registers,
        ptrace_GETREGS, ptrace_SETREGS, State.failed, hl, h0, h1, Nat.pos_iff_ne_zero.mp,
        t2] at h
    obtain ⟨rfl, rfl⟩ := h
    exact ⟨rfl, sparc.prepared_regs_eq _ _ _ _ _ _ _ _ _ _ _ _ _, rfl, hs⟩

/-- Instance of C3 on both backends: a remote `lseek(3, 9, SEEK_CUR)` whose
second argument is not used, so that its slot keeps the snapshot value 0. -/
theorem remote_syscall_registers_witness :
    (∃ f s1, x86_64.remote_syscall_setup x86_64.env_ok 8 1 3 0 9 1 1 0 0 0 0 x86_64.state0
        = .ret f s1 ∧
      s1.regs.rax = 8 ∧ s1.regs.rdi = 3 ∧ s1.regs.rsi = 0 ∧ s1.regs.rdx = 1 ∧
      s1.regs.rip = 0x1010) ∧
    (∃ f s1, sparc.remote_syscall_setup sparc.env_ok 19 1 3 0 9 1 1 0 0 0 0 sparc.state0
        = .ret f s1 ∧
      s1.regs.r_g1 = 19 ∧ s1.regs.r_o0 = 3 ∧ s1.regs.r_o1 = 0 ∧ s1.regs.r_o2 = 1 ∧
      s1.regs.r_pc = 0x2000 ∧ s1.regs.r_npc = 0x2000) := by
  have hx := remote_syscall_registers.1 x86_64.env_ok 8 1 3 0 9 1 1 0 0 0 0 x86_64.state0
    _ _ rfl rfl rfl
  have hs := remote_syscall_registers.2 sparc.arch32 sparc.env_ok 19 1 3 0 9 1 1 0 0 0 0
    sparc.state0 _ _ rfl
  refine ⟨⟨_, _, rfl, ?_⟩, ⟨_, _, rfl, ?_⟩⟩
  · rw [hx.2.1]; decide
  · rw [hs.2.1]; decide

namespace x86_64

/-- C4, the engine evaluated where the kernel returns `-ENOMEM`: the test
`regs.rax < 0` on the unsigned `rax` is false, so `__remote_syscall` returns
`rax` itself, `2^64 - 12`, and not the sentinel `-1`; `errno` is left as it was,
not set to 12; and `r_mprotect`, which casts the result to `int`, returns `-12`. -/
theorem r_mprotect_enomem :
    (__remote_syscall env_enomem __NR_mprotect 1 0x5000 1 4096 1 3 0 0 0 0 state0).value?
      = some (2 ^ 64 - 12) ∧
    (r_mprotect env_enomem 0x5000 4096 3 state0).value? = some (-12) ∧
    (r_mprotect env_enomem 0x5000 4096 3 state0).state.errno = 0 ∧
    arch.minus_one = 2 ^ 64 - 1 := by
  decide

end x86_64

/-! ## The capture orchestrator -/

section OrchestrationProofs

variable {R : Type}

/-- A fetcher that returns lets the run go on from the state it left. -/
theorem call_of_returned (o : Bool → Op R) (f : State R → Result (State R) Unit)
    (s : State R) (k : State R → Run R) (h : (f s).returned = true) :
    call o f s k = traced (o true) (k (f s).state) := by
  unfold call
  cases hf : f s with
  | ret v s1 => rfl
  | exit c s1 => rw [hf] at h; exact absurd h (by simp [Result.returned])
  | abort s1 => rw [hf] at h; exact absurd h (by simp [Result.returned])

/-- With a page to restore, `restore_page` returns and the run goes on. -/
theorem call_restore_page_of_isSome (A : Arch) (E : Env R) (addr : Nat)
    (page : Option (Nat → Nat)) (s : State R) (k : State R → Run R)
    (h : page.isSome = true) :
    call_restore_page A E addr page s k
      = traced .restore_page (k (restore_page A E addr page s).state) := by
  cases page with
  | none => exact absurd h (by simp)
  | some p => rfl

/-- With every request succeeding and a clear error indicator, `backup_page`
returns a page. -/
theorem backup_page_isSome (A : Arch) (E : Env R) (addr : Nat) (s : State R)
    (hall : ∀ n, E.err n = 0) (hc : s.errno = 0 ∨ E.peek_clears_errno = true) :
    (backup_page A E addr s).1.isSome = true :=
  backup_page_loop_ok A E addr hall _ _ _ _ hc

/-- The discipline passes from a trace to the trace with one more operation in
front that is neither a detach nor the end of the process. -/
theorem detachDiscipline_cons (o : Op R) (t : List (Op R))
    (h1 : o.isDetach = false) (h2 : o.endedInside = false)
    (ht : detachDiscipline t = true) : detachDiscipline (o :: t) = true := by
  cases t with
  | nil => exact absurd ht (by simp [detachDiscipline])
  | cons a t => simp [detachDiscipline, h1, h2, ht]

/-- The discipline of the tail of a trace that does not stop at its head. -/
theorem detachDiscipline_tail (o : Op R) (t : List (Op R))
    (h1 : o.isDetach = false) (h2 : o.endedInside = false)
    (h : detachDiscipline (o :: t) = true) : detachDiscipline t = true := by
  cases t with
  | nil => simp [detachDiscipline, h1, h2] at h
  | cons a t =>
    simp only [detachDiscipline, Bool.and_eq_true] at h
    exact h.2

/-- A disciplined trace in which the process never ended inside an operation is
a run of operations other than detach followed by one `PTRACE_DETACH`. -/
theorem detachDiscipline_split :
    ∀ (t : List (Op R)), detachDiscipline t = true → (∀ o ∈ t, o.endedInside = false) →
      ∃ init ok, t = init ++ [.PTRACE_DETACH ok] ∧ ∀ o ∈ init, o.isDetach = false := by
  intro t
  induction t with
  | nil => intro h _; exact absurd h (by simp [detachDiscipline])
  | cons a t ih =>
    intro h he
    cases t with
    | nil =>
      have ha := he a (List.mem_cons_self _ _)
      simp only [detachDiscipline, ha, Bool.or_false] at h
      cases a <;> simp [Op.isDetach] at h
      exact ⟨[], _, rfl, fun o ho => absurd ho (List.not_mem_nil _)⟩
    | cons b t =>
      simp only [detachDiscipline, Bool.and_eq_true, Bool.not_eq_true'] at h
      obtain ⟨init, ok, hi, hn⟩ := ih h.2 (fun o ho => he o (List.mem_cons_of_mem _ ho))
      refine ⟨a :: init, ok, by rw [hi]; rfl, fun o ho => ?_⟩
      rcases List.mem_cons.mp ho with rfl | ho
      · exact h.1.1
      · exact hn o ho

/-- The code after the label `out_ptrace` is disciplined. -/
theorem disciplined_out_ptrace (E : Env R) (success : Int) (s : State R) :
    Disciplined (out_ptrace E success s) := by
  intro _
  unfold out_ptrace end_ptrace
  by_cases hd : (ptrace_plain E s).1 = -1
  · simp [hd, detachDiscipline, Op.isDetach]
  · by_cases hs : success = 0 <;> simp [hd, hs, traced, detachDiscipline, Op.isDetach]

/-- Recording an operation that is neither a detach nor the end of the process
keeps a run disciplined. -/
theorem disciplined_traced (o : Op R) (r : Run R)
    (h1 : o.isDetach = false) (h2 : o.endedInside = false) (hr : Disciplined r) :
    Disciplined (traced o r) := by
  intro hn
  simp only [traced, List.mem_cons, not_or] at hn
  exact detachDiscipline_cons o r.2 h1 h2 (hr hn.2)

/-- Calling a fetcher keeps a run disciplined. -/
theorem disciplined_call (o : Bool → Op R) (f : State R → Result (State R) Unit)
    (s : State R) (k : State R → Run R)
    (h1 : (o true).isDetach = false) (h2 : (o true).endedInside = false)
    (h3 : (o false).endedInside = true) (hk : ∀ s1, Disciplined (k s1)) :
    Disciplined (call o f s k) := by
  unfold call
  cases f s with
  | ret v s1 => exact disciplined_traced _ _ h1 h2 (hk s1)
  | exit c s1 => intro _; simp [detachDiscipline, h3]
  | abort s1 => intro _; simp [detachDiscipline, h3]

/-- Restoring a page that `backup_page` returned keeps a run disciplined. -/
theorem disciplined_call_restore_page (A : Arch) (E : Env R) (addr : Nat)
    (page : Option (Nat → Nat)) (s : State R) (k : State R → Run R)
    (hp : page.isSome = true) (hk : ∀ s1, Disciplined (k s1)) :
    Disciplined (call_restore_page A E addr page s k) := by
  rw [call_restore_page_of_isSome A E addr page s k hp]
  exact disciplined_traced _ _ (by rfl) (by rfl) (hk _)

/-- Recording the outcome of `backup_page` keeps a run disciplined when the rest
of the run is, given that a page was returned. -/
theorem disciplined_backup (b : Bool) (r : Run R) (hr : b = true → Disciplined r) :
    Disciplined (traced (.backup_page b) r) := by
  cases b with
  | false => intro hn; exact absurd (List.mem_cons_self _ _) hn
  | true => exact disciplined_traced _ _ (by rfl) (by rfl) (hr rfl)

/-- The function `start_ptrace` keeps a run disciplined, and its trace is the
failed attach alone or starts with the successful attach. -/
theorem disciplined_start_ptrace (E : Env R) (s : State R) (k : State R → Run R)
    (hk : ∀ s1, Disciplined (k s1)) :
    Disciplined (start_ptrace E s k) ∧
    ((start_ptrace E s k).2 = [.PTRACE_ATTACH false] ∨
      ∃ t, (start_ptrace E s k).2 = .PTRACE_ATTACH true :: t) := by
  unfold start_ptrace
  dsimp only
  split
  · exact ⟨fun _ => by simp [detachDiscipline, Op.endedInside], Or.inl rfl⟩
  · refine ⟨?_, Or.inr ⟨_, rfl⟩⟩
    apply disciplined_traced _ _ (by rfl) (by rfl)
    split
    · exact hk _
    · split
      · intro _; simp [detachDiscipline, Op.endedInside]
      · exact disciplined_traced _ _ (by rfl) (by rfl) (hk _)

/-- The trace of a fetcher call starts with the record of that call, be it of a
fetcher that did not return or of one that did. -/
theorem call_trace_head (o : Bool → Op R) (f : State R → Result (State R) Unit)
    (s : State R) (k : State R → Run R) :
    (∃ t, (call o f s k).2 = o false :: t) ∨ ∃ t, (call o f s k).2 = o true :: t := by
  unfold call
  cases f s with
  | ret v s1 => exact Or.inr ⟨_, rfl⟩
  | exit c s1 => exact Or.inl ⟨[], rfl⟩
  | abort s1 => exact Or.inl ⟨[], rfl⟩

end OrchestrationProofs

/-- C8: in a run of `get_process` in which no primitive fails (every ptrace and
waitpid request succeeds, the fetchers return, and `backup_page` finds the error
indicator clear, so that it reports no failure) and the VMA fetcher publishes a
scribble zone, the sequence of operations is exactly: attach (with the wait for
the stop unless the target was already stopped), snapshot of the registers, VMA
fetcher, backup of the scribble page, the fd, register and signal-handler
fetchers once each (fd, sighand, regs on x86-64; fd, regs, sighand on SPARC),
restore of the scribble page, restore of the snapshotted registers, detach; and
`get_process` returns. -/
theorem get_process_sequence :
    (∀ (E : Env x86_64.user_regs_struct) (F : Fetchers x86_64.user_regs_struct)
      (s : x86_64.St),
      (∀ n, E.err n = 0) → F.returns →
      (∀ s0, (F.fetch_chunks_vma s0).state.scribble_zone ≠ 0) →
      (∀ s0, (F.fetch_chunks_vma s0).state.errno = 0 ∨ E.peek_clears_errno = true) →
      (x86_64.get_process E F s).2 = start_ops E ++
        [.save_registers 0 s.regs, .fetch_chunks_vma true, .backup_page true,
         .fetch_chunks_fd true, .fetch_chunks_sighand true, .fetch_chunks_regs true,
         .restore_page, .restore_registers s.regs, .PTRACE_DETACH true] ∧
      (x86_64.get_process E F s).1.returned = true) ∧
    (∀ (A : Arch) (E : Env sparc.regs) (F : Fetchers sparc.regs) (s : sparc.St),
      (∀ n, E.err n = 0) → F.returns →
      (∀ s0, (F.fetch_chunks_vma s0).state.scribble_zone ≠ 0) →
      (∀ s0, (F.fetch_chunks_vma s0).state.errno = 0 ∨ E.peek_clears_errno = true) →
      (sparc.get_process A E F s).2 = start_ops E ++
        [.save_registers 0 s.regs, .fetch_chunks_vma true, .backup_page true,
         .fetch_chunks_fd true, .fetch_chunks_regs true, .fetch_chunks_sighand true,
         .restore_page, .restore_registers s.regs, .PTRACE_DETACH true] ∧
      (sparc.get_process A E F s).1.returned = true) := by
  constructor
  · intro E F s hall hF hzone herr
    obtain ⟨hv, hfd, hsh, hrg⟩ := hF
    have cv := fun s k => call_of_returned Op.fetch_chunks_vma F.fetch_chunks_vma s k (hv s)
    have cfd := fun s k => call_of_returned Op.fetch_chunks_fd F.fetch_chunks_fd s k (hfd s)
    have csh := fun s k =>
      call_of_returned Op.fetch_chunks_sighand F.fetch_chunks_sighand s k (hsh s)
    have crg := fun w s k =>
      call_of_returned Op.fetch_chunks_regs (F.fetch_chunks_regs w) s k (hrg w s)
    have hb := fun s0 => backup_page_isSome x86_64.arch E
      (F.fetch_chunks_vma s0).state.scribble_zone (F.fetch_chunks_vma s0).state hall (herr s0)
    have cr := fun s0 (s5 : x86_64.St) k =>
      call_restore_page_of_isSome x86_64.arch E s5.scribble_zone _ s5 k (hb s0)
    by_cases hp : process_is_stopped E = 0 <;>
      simp [x86_64.get_process, start_ptrace, out_ptrace, end_ptrace, ptrace_plain, waitpid,
        x86_64.save_registers, x86_64.restore_registers, ptrace_GETREGS, ptrace_SETREGS,
        hall, cv, cfd, csh, crg, hb, cr, hzone, traced, start_ops, hp, Result.returned]
  · intro A E F s hall hF hzone herr
    obtain ⟨hv, hfd, hsh, hrg⟩ := hF
    have cv := fun s k => call_of_returned Op.fetch_chunks_vma F.fetch_chunks_vma s k (hv s)
    have cfd := fun s k => call_of_returned Op.fetch_chunks_fd F.fetch_chunks_fd s k (hfd s)
    have csh := fun s k =>
      call_of_returned Op.fetch_chunks_sighand F.fetch_chunks_sighand s k (hsh s)
    have crg := fun w s k =>
      call_of_returned Op.fetch_chunks_regs (F.fetch_chunks_regs w) s k (hrg w s)
    have hb := fun s0 => backup_page_isSome A E
      (F.fetch_chunks_vma s0).state.scribble_zone (F.fetch_chunks_vma s0).state hall (herr s0)
    have cr := fun s0 (s5 : sparc.St) k =>
      call_restore_page_of_isSome A E s5.scribble_zone _ s5 k (hb s0)
    by_cases hp : process_is_stopped E = 0 <;>
      simp [sparc.get_process, start_ptrace, out_ptrace, end_ptrace, ptrace_plain, waitpid,
        sparc.save_registers, sparc.restore_registers, ptrace_GETREGS, ptrace_SETREGS,
        hall, cv, cfd, csh, crg, hb, cr, hzone, traced, start_ops, hp, Result.returned]

/-- Instance of C8 on both backends, with the kernels `env_ok` and the fetchers
`fetchers_ok`. -/
theorem get_process_sequence_witness :
    (x86_64.get_process x86_64.env_ok x86_64.fetchers_ok x86_64.state0).2 =
      [.PTRACE_ATTACH true, .waitpid true, .save_registers 0 x86_64.regs0,
       .fetch_chunks_vma true, .backup_page true, .fetch_chunks_fd true,
       .fetch_chunks_sighand true, .fetch_chunks_regs true, .restore_page,
       .restore_registers x86_64.regs0, .PTRACE_DETACH true] ∧
    (sparc.get_process sparc.arch32 sparc.env_ok sparc.fetchers_ok sparc.state0).2 =
      [.PTRACE_ATTACH true, .waitpid true, .save_registers 0 sparc.regs0,
       .fetch_chunks_vma true, .backup_page true, .fetch_chunks_fd true,
       .fetch_chunks_regs true, .fetch_chunks_sighand true, .restore_page,
       .restore_registers sparc.regs0, .PTRACE_DETACH true] :=
  ⟨(get_process_sequence.1 x86_64.env_ok x86_64.fetchers_ok x86_64.state0 (fun _ => rfl)
      ⟨fun _ => rfl, fun _ => rfl, fun _ => rfl, fun _ _ => rfl⟩
      (fun _ => (by decide : (0x1000 : Nat) ≠ 0)) (fun _ => Or.inl rfl)).1,
   (get_process_sequence.2 sparc.arch32 sparc.env_ok sparc.fetchers_ok sparc.state0
      (fun _ => rfl) ⟨fun _ => rfl, fun _ => rfl, fun _ => rfl, fun _ _ => rfl⟩
      (fun _ => (by decide : (0x1000 : Nat) ≠ 0)) (fun _ => Or.inl rfl)).1⟩

/-- Counterexample to C9: the attach succeeds and the wait that follows it in
`start_ptrace` fails (request 1); the process ends in `exit(1)` and no
`PTRACE_DETACH` has been issued, on either backend. -/
theorem get_process_detach_counterexample :
    (x86_64.get_process (x86_64.env_fail 1) x86_64.fetchers_ok x86_64.state0).2 =
      [.PTRACE_ATTACH true, .waitpid false] ∧
    (x86_64.get_process (x86_64.env_fail 1) x86_64.fetchers_ok x86_64.state0).1.returned
      = false ∧
    (sparc.get_process sparc.arch32 (sparc.env_fail 1) sparc.fetchers_ok sparc.state0).2 =
      [.PTRACE_ATTACH true, .waitpid false] ∧
    (sparc.get_process sparc.arch32 (sparc.env_fail 1) sparc.fetchers_ok sparc.state0).1.returned
      = false := by
  decide

/-- C9, amended: on every path of `get_process` on which the process is not
ended inside `start_ptrace` or inside a fetcher, and on which `backup_page`
returned a page, the trace is the successful `PTRACE_ATTACH`, then operations
none of which is a detach, then exactly one `PTRACE_DETACH`, issued last, before
`get_process` returns or aborts.  This holds on both backends. -/
theorem get_process_detach :
    (∀ (E : Env x86_64.user_regs_struct) (F : Fetchers x86_64.user_regs_struct)
      (s : x86_64.St),
      Op.backup_page false ∉ (x86_64.get_process E F s).2 →
      (∀ o ∈ (x86_64.get_process E F s).2, o.endedInside = false) →
      ∃ mid ok, (x86_64.get_process E F s).2
          = .PTRACE_ATTACH true :: mid ++ [.PTRACE_DETACH ok] ∧
        ∀ o ∈ mid, o.isDetach = false) ∧
    (∀ (A : Arch) (E : Env sparc.regs) (F : Fetchers sparc.regs) (s : sparc.St),
      Op.backup_page false ∉ (sparc.get_process A E F s).2 →
      (∀ o ∈ (sparc.get_process A E F s).2, o.endedInside = false) →
      ∃ mid ok, (sparc.get_process A E F s).2
          = .PTRACE_ATTACH true :: mid ++ [.PTRACE_DETACH ok] ∧
        ∀ o ∈ mid, o.isDetach = false) := by
  have key : ∀ {R : Type} (r : Run R),
      (Disciplined r ∧ (r.2 = [.PTRACE_ATTACH false] ∨ ∃ t, r.2 = .PTRACE_ATTACH true :: t)) →
      Op.backup_page false ∉ r.2 → (∀ o ∈ r.2, o.endedInside = false) →
      ∃ mid ok, r.2 = .PTRACE_ATTACH true :: mid ++ [.PTRACE_DETACH ok] ∧
        ∀ o ∈ mid, o.isDetach = false := by
    intro R r ⟨hd, hh⟩ hb he
    rcases hh with hh | ⟨t, hh⟩
    · have := he (.PTRACE_ATTACH false) (by rw [hh]; exact List.mem_cons_self _ _)
      simp [Op.endedInside] at this
    · have hdd := hd hb
      rw [hh] at hdd he
      have ht := detachDiscipline_tail _ t (by rfl) (by rfl) hdd
      obtain ⟨init, ok, hi, hn⟩ :=
        detachDiscipline_split t ht (fun o ho => he o (List.mem_cons_of_mem _ ho))
      exact ⟨init, ok, by rw [hh, hi]; rfl, hn⟩
  constructor
  · intro E F s
    apply key
    unfold x86_64.get_process
    apply disciplined_start_ptrace
    intro s1
    dsimp only
    apply disciplined_traced _ _ (by rfl) (by rfl)
    split
    · exact disciplined_out_ptrace _ _ _
    · apply disciplined_call _ _ _ _ (by rfl) (by rfl) (by rfl)
      intro s2
      split
      · exact disciplined_out_ptrace _ _ _
      · apply disciplined_backup
        intro hb
        apply disciplined_call _ _ _ _ (by rfl) (by rfl) (by rfl)
        intro s3
        apply disciplined_call _ _ _ _ (by rfl) (by rfl) (by rfl)
        intro s4
        apply disciplined_call _ _ _ _ (by rfl) (by rfl) (by rfl)
        intro s5
        apply disciplined_call_restore_page _ _ _ _ _ _ hb
        intro s6
        exact disciplined_traced _ _ (by rfl) (by rfl) (disciplined_out_ptrace _ _ _)
  · intro A E F s
    apply key
    unfold sparc.get_process
    apply disciplined_start_ptrace
    intro s1
    dsimp only
    apply disciplined_traced _ _ (by rfl) (by rfl)
    split
    · exact disciplined_out_ptrace _ _ _
    · apply disciplined_call _ _ _ _ (by rfl) (by rfl) (by rfl)
      intro s2
      split
      · exact disciplined_traced _ _ (by rfl) (by rfl) (disciplined_out_ptrace _ _ _)
      · apply disciplined_backup
        intro hb
        apply disciplined_call _ _ _ _ (by rfl) (by rfl) (by rfl)
        intro s3
        apply disciplined_call _ _ _ _ (by rfl) (by rfl) (by rfl)
        intro s4
        apply disciplined_call _ _ _ _ (by rfl) (by rfl) (by rfl)
        intro s5
        apply disciplined_call_restore_page _ _ _ _ _ _ hb
        intro s6
        exact disciplined_traced _ _ (by rfl) (by rfl) (disciplined_out_ptrace _ _ _)

/-- Instances of C9 as amended, on two failure paths: on x86-64 the VMA fetcher
finds no scribble zone, and on SPARC the register snapshot (request 2) fails;
each run detaches exactly once, last, and then aborts. -/
theorem get_process_detach_witness :
    (∃ mid ok, (x86_64.get_process x86_64.env_ok x86_64.fetchers_no_zone x86_64.state0).2
        = .PTRACE_ATTACH true :: mid ++ [.PTRACE_DETACH ok] ∧
      ∀ o ∈ mid, o.isDetach = false) ∧
    (∃ mid ok, (sparc.get_process sparc.arch32 (sparc.env_fail 2) sparc.fetchers_ok
        sparc.state0).2 = .PTRACE_ATTACH true :: mid ++ [.PTRACE_DETACH ok] ∧
      ∀ o ∈ mid, o.isDetach = false) :=
  ⟨get_process_detach.1 x86_64.env_ok x86_64.fetchers_no_zone x86_64.state0
      (by decide) (by decide),
   get_process_detach.2 sparc.arch32 (sparc.env_fail 2) sparc.fetchers_ok sparc.state0
      (by decide) (by decide)⟩

/-- C10 on x86-64, evaluated with a VMA fetcher that leaves the scribble zone
unset: `get_process` invokes no further fetcher and no `backup_page`, detaches and
aborts, but it issues no `restore_registers`; the target is detached with the
registers as the fetcher left them (`rax` is 1, the snapshot had 0).  The SPARC
`get_process` does restore the snapshot before it detaches. -/
theorem get_process_no_zone :
    (x86_64.get_process x86_64.env_ok x86_64.fetchers_no_zone x86_64.state0).2 =
      [.PTRACE_ATTACH true, .waitpid true, .save_registers 0 x86_64.regs0,
       .fetch_chunks_vma true, .PTRACE_DETACH true] ∧
    (x86_64.get_process x86_64.env_ok x86_64.fetchers_no_zone x86_64.state0).1.aborted
      = true ∧
    (x86_64.get_process x86_64.env_ok x86_64.fetchers_no_zone x86_64.state0).1.state.regs.rax
      = 1 ∧
    x86_64.regs0.rax = 0 ∧
    (sparc.get_process sparc.arch32 sparc.env_ok sparc.fetchers_no_zone sparc.state0).2 =
      [.PTRACE_ATTACH true, .waitpid true, .save_registers 0 sparc.regs0,
       .fetch_chunks_vma true, .restore_registers sparc.regs0, .PTRACE_DETACH true] ∧
    (sparc.get_process sparc.arch32 sparc.env_ok sparc.fetchers_no_zone sparc.state0).1.aborted
      = true ∧
    (sparc.get_process sparc.arch32 sparc.env_ok sparc.fetchers_no_zone
      sparc.state0).1.state.regs = sparc.regs0 := by
  decide

namespace sparc

/-- Counterexample to C11: every wait reports a `SIGSTOP` stop, so the stop after
the first step and the stop after the retry are both not `SIGTRAP`; the engine
does not fail, it goes on to read the result registers and returns the value 0. -/
theorem remote_syscall_retry_counterexample :
    WSTOPSIG (env_stops.status 3) ≠ SIGTRAP ∧
    WSTOPSIG (env_stops.status 7) ≠ SIGTRAP ∧
    (__remote_syscall arch32 env_stops 19 1 3 1 9 1 1 0 0 0 0 state0).returned = true ∧
    (__remote_syscall arch32 env_stops 19 1 3 1 9 1 1 0 0 0 0 state0).value? = some 0 ∧
    (__remote_syscall arch32 env_stops 19 1 3 1 9 1 1 0 0 0 0 state0).state.tick = 12 := by
  decide

/-- C11, amended: in the SPARC `__remote_syscall` with every request succeeding,
if the stop reported after the first step is not `SIGTRAP` the engine
re-installs the prepared registers `R1` and steps once more; whatever stop is
reported after that retry, the engine goes on to the last step, reads the result
registers, puts the entry snapshot back and returns a value: `-1` when the carry
bit of the registers read is set, their `o0` otherwise. -/
theorem remote_syscall_retry (A : Arch) (E : Env regs) (syscall_no : Int)
    (use_o0 : Int) (o0 : Nat) (use_o1 : Int) (o1 : Nat) (use_o2 : Int) (o2 : Nat)
    (use_o3 : Int) (o3 : Nat) (use_o4 : Int) (o4 : Nat) (s : St)
    (hloc : s.syscall_loc ≠ 0) (hall : ∀ n, E.err n = 0)
    (h1 : WSTOPSIG (E.status (s.tick + 3)) ≠ SIGTRAP) :
    ∃ s', __remote_syscall A E syscall_no use_o0 o0 use_o1 o1 use_o2 o2
        use_o3 o3 use_o4 o4 s
        = .ret (if (retried_target E s.tick (syscall_regs s.regs s.syscall_loc syscall_no
                    use_o0 o0 use_o1 o1 use_o2 o2 use_o3 o3 use_o4 o4) s.mem).1.r_psr
                  &&& PSR_C ≠ 0 then A.minus_one
                else (retried_target E s.tick (syscall_regs s.regs s.syscall_loc syscall_no
                    use_o0 o0 use_o1 o1 use_o2 o2 use_o3 o3 use_o4 o4) s.mem).1.r_o0) s' ∧
      s'.regs = s.regs ∧
      s'.mem = (retried_target E s.tick (syscall_regs s.regs s.syscall_loc syscall_no
        use_o0 o0 use_o1 o1 use_o2 o2 use_o3 o3 use_o4 o4) s.mem).2 := by
  have t3 : s.tick + 1 + 1 + 1 = s.tick + 3 := by omega
  have t2 : s.tick + 1 + 1 = s.tick + 2 := by omega
  simp [__remote_syscall, remote_syscall_setup, remote_syscall_step, remote_syscall_finish,
    syscall_stop, save_registers, restore_registers, ptrace_GETREGS, ptrace_SETREGS,
    ptrace_resume, waitpid, retried_target, hall, hloc, t2, t3, h1]
  have t6 : s.tick + 3 + 1 + 1 + 1 = s.tick + 6 := by omega
  have t8 : s.tick + 6 + 1 + 1 = s.tick + 8 := by omega
  rw [t6, t8]
  split <;> exact ⟨_, rfl, rfl, rfl⟩

/-- Instance of C11 as amended: with the kernel `env_stops`, in which no wait
ever reports `SIGTRAP`, a remote `lseek(3, 9, SEEK_CUR)` on `state0` retries and
then returns the value 0, with the registers put back. -/
theorem remote_syscall_retry_witness :
    WSTOPSIG (env_stops.status (state0.tick + 3)) ≠ SIGTRAP ∧
    ∃ s', __remote_syscall arch32 env_stops 19 1 3 1 9 1 1 0 0 0 0 state0 = .ret 0 s' ∧
      s'.regs = state0.regs := by
  obtain ⟨s', h, hr, -⟩ := remote_syscall_retry arch32 env_stops 19 1 3 1 9 1 1 0 0 0 0
    state0 (by decide) (fun _ => rfl) (by decide)
  exact ⟨by decide, s', h, hr⟩

end sparc

section PeekProofs

variable {R : Type}

/-- With the C library resetting `errno` on a successful peek, the loop of
`memcpy_from_target` returns 1 when the requests it issues succeed, whatever
`errno` held before. -/
theorem memcpy_from_target_loop_clears (A : Arch) (E : Env R) (src : Nat)
    (hclr : E.peek_clears_errno = true) :
    ∀ (k i : Nat) (d : Nat → Nat) (s : State R),
      (∀ j, j < k → E.err (s.tick + j) = 0) →
      (memcpy_from_target_loop A E src k i d s).1 = 1 := by
  intro k
  induction k with
  | zero => intro i d s _; rfl
  | succ k ih =>
    intro i d s h
    have h0 : E.err s.tick = 0 := h 0 (Nat.succ_pos k)
    have hz : (ptrace_PEEKTEXT A E (src + i * A.sizeof_long) s).2.errno = 0 := by
      simp [ptrace_PEEKTEXT, h0, hclr]
    rw [memcpy_from_target_loop, if_neg (not_not.mpr hz)]
    apply ih
    intro j hj
    have ht : (ptrace_PEEKTEXT A E (src + i * A.sizeof_long) s).2.tick = s.tick + 1 := by
      simp [ptrace_PEEKTEXT, h0]
    rw [ht, Nat.add_assoc, Nat.add_comm 1 j]
    exact h (j + 1) (Nat.succ_lt_succ hj)

/-- With the C library resetting `errno` on a successful peek, the loop of
`backup_page` returns a page when the requests it issues, a peek and a poke for
each word, succeed, whatever `errno` held before. -/
theorem backup_page_loop_clears (A : Arch) (E : Env R) (addr : Nat)
    (hclr : E.peek_clears_errno = true) :
    ∀ (k i : Nat) (page : Nat → Nat) (s : State R),
      (∀ j, j < 2 * k → E.err (s.tick + j) = 0) →
      (backup_page_loop A E addr k i page s).1.isSome = true := by
  intro k
  induction k with
  | zero => intro i page s _; rfl
  | succ k ih =>
    intro i page s h
    have h0 : E.err s.tick = 0 := h 0 (by omega)
    have h1 : E.err (s.tick + 1) = 0 := h 1 (by omega)
    have hz : (ptrace_PEEKTEXT A E (addr + i * A.sizeof_long) s).2.errno = 0 := by
      simp [ptrace_PEEKTEXT, h0, hclr]
    have ht : (ptrace_PEEKTEXT A E (addr + i * A.sizeof_long) s).2.tick = s.tick + 1 := by
      simp [ptrace_PEEKTEXT, h0]
    have hq : (ptrace_POKETEXT E (addr + i * A.sizeof_long) A.ARCH_POISON
        (ptrace_PEEKTEXT A E (addr + i * A.sizeof_long) s).2).1 ≠ -1 := by
      simp [ptrace_POKETEXT, ht, h1]
    have ht2 : (ptrace_POKETEXT E (addr + i * A.sizeof_long) A.ARCH_POISON
        (ptrace_PEEKTEXT A E (addr + i * A.sizeof_long) s).2).2.tick = s.tick + 2 := by
      simp [ptrace_POKETEXT, ht, h1]
    rw [backup_page_loop]
    dsimp only
    rw [if_neg (not_not.mpr hz), if_neg hq]
    apply ih
    intro j hj
    rw [ht2, Nat.add_assoc, Nat.add_comm 2 j]
    exact h (j + 2) (by omega)

/-- C12: `memcpy_from_target` and `backup_page` report a failure only when a
request failed.  With the `ptrace` wrapper of the C library resetting `errno` on
a successful peek, and for every value `errno` holds when they are called: if
the `n / sizeof(long)` peeks issued by `memcpy_from_target` succeed it returns 1
with each of those words of the destination holding the word of the target, and
if the peek and the poke issued by `backup_page` for each word of the page
succeed it returns a page, not `NULL`.  This holds for the constants of either
backend. -/
theorem peek_failure_only (A : Arch) (E : Env R) (hclr : E.peek_clears_errno = true) :
    (∀ (dst : Nat → Nat) (src n : Nat) (s : State R),
      (∀ j, j < n / A.sizeof_long → E.err (s.tick + j) = 0) →
      ∃ dst' s', memcpy_from_target A E dst src n s = (1, dst', s') ∧
        ∀ i, i < n / A.sizeof_long → dst' i = s.mem (src + i * A.sizeof_long)) ∧
    (∀ (addr : Nat) (s : State R),
      (∀ j, j < 2 * (A.PAGE_SIZE / A.sizeof_long) → E.err (s.tick + j) = 0) →
      ∃ page s', backup_page A E addr s = (some page, s')) := by
  constructor
  · intro dst src n s h
    have h1 : (memcpy_from_target A E dst src n s).1 = 1 :=
      memcpy_from_target_loop_clears A E src hclr _ _ _ _ h
    have he : memcpy_from_target A E dst src n s =
        (1, (memcpy_from_target A E dst src n s).2.1,
          (memcpy_from_target A E dst src n s).2.2) := Prod.ext h1 rfl
    refine ⟨_, _, he, fun i hi => ?_⟩
    have hs := (memcpy_from_target_loop_spec A E src _ _ _ _ _ _ he).1
    exact hs i (Nat.zero_le _) (by omega)
  · intro addr s h
    have hs : (backup_page A E addr s).1.isSome = true :=
      backup_page_loop_clears A E addr hclr _ _ _ _ h
    obtain ⟨page, hp⟩ := Option.isSome_iff_exists.mp hs
    exact ⟨page, (backup_page A E addr s).2, Prod.ext hp rfl⟩

/-- Instance of C12, called with the stale error number 22 in `errno`: on x86-64
`memcpy_from_target` of 16 bytes returns 1 with both words copied, and
`backup_page` returns a page on either backend. -/
theorem peek_failure_only_witness :
    x86_64.state_stale.errno = 22 ∧
    (∃ dst' s', memcpy_from_target x86_64.arch x86_64.env_glibc (fun _ => 0) 0x1100 16
        x86_64.state_stale = (1, dst', s') ∧
      dst' 0 = 0x1107 ∧ dst' 1 = 0x110f) ∧
    (∃ page s', backup_page x86_64.arch x86_64.env_glibc 0x1000 x86_64.state_stale
        = (some page, s')) ∧
    (∃ page s', backup_page sparc.arch32 sparc.env_glibc 0x1000 sparc.state_stale
        = (some page, s')) := by
  have h := peek_failure_only x86_64.arch x86_64.env_glibc rfl
  obtain ⟨dst', s', h1, h2⟩ := h.1 (fun _ => 0) 0x1100 16 x86_64.state_stale (fun _ _ => rfl)
  exact ⟨rfl, ⟨dst', s', h1, h2 0 (by decide), h2 1 (by decide)⟩,
    h.2 0x1000 x86_64.state_stale (fun _ _ => rfl),
    (peek_failure_only sparc.arch32 sparc.env_glibc rfl).2 0x1000 sparc.state_stale
      (fun _ _ => rfl)⟩

end PeekProofs

/-- C13: on x86-64 `save_registers` and `restore_registers` never return a
negative value: 0 when the request succeeds and the positive `errno` when it
fails, so the test `< 0` of a caller is false.  When `PTRACE_GETREGS` fails at
the register snapshot of `get_process` (after `start_ptrace` has returned), the
x86-64 `get_process` records the positive result, does not take its failure
branch and goes on to invoke the VMA fetcher.  The SPARC functions return
`-errno`, a negative value, and the SPARC `get_process` takes the failure
branch: it detaches at once and invokes no fetcher. -/
theorem save_registers_sign :
    (∀ (E : Env x86_64.user_regs_struct) (r : x86_64.user_regs_struct) (s : x86_64.St),
      (0 ≤ (x86_64.save_registers E r s).1 ∧ 0 ≤ (x86_64.restore_registers E r s).1) ∧
      (E.err s.tick = 0 →
        (x86_64.save_registers E r s).1 = 0 ∧ (x86_64.restore_registers E r s).1 = 0) ∧
      (E.err s.tick ≠ 0 →
        (x86_64.save_registers E r s).1 = E.err s.tick ∧
        (x86_64.restore_registers E r s).1 = E.err s.tick ∧
        (0 : Int) < E.err s.tick)) ∧
    (∀ (E : Env x86_64.user_regs_struct) (F : Fetchers x86_64.user_regs_struct)
      (s : x86_64.St),
      E.err s.tick = 0 → (process_is_stopped E = 0 → E.err (s.tick + 1) = 0) →
      E.err (snapshot_tick E s) ≠ 0 →
      ∃ b t, (x86_64.get_process E F s).2 = start_ops E ++
        (.save_registers (E.err (snapshot_tick E s)) E.uninit_regs ::
          .fetch_chunks_vma b :: t)) ∧
    (∀ (E : Env sparc.regs) (r : sparc.regs) (s : sparc.St),
      E.err s.tick ≠ 0 →
      (sparc.save_registers E r s).1 = -(E.err s.tick : Int) ∧
      (sparc.restore_registers E r s).1 = -(E.err s.tick : Int) ∧
      (sparc.save_registers E r s).1 < 0 ∧ (sparc.restore_registers E r s).1 < 0) ∧
    (∀ (A : Arch) (E : Env sparc.regs) (F : Fetchers sparc.regs) (s : sparc.St),
      E.err s.tick = 0 → (process_is_stopped E = 0 → E.err (s.tick + 1) = 0) →
      E.err (snapshot_tick E s) ≠ 0 →
      ∃ ok, (sparc.get_process A E F s).2 = start_ops E ++
        [.save_registers (-(E.err (snapshot_tick E s) : Int)) E.uninit_regs,
         .PTRACE_DETACH ok]) := by
  refine ⟨?_, ?_, ?_, ?_⟩
  · intro E r s
    rcases Nat.eq_zero_or_pos (E.err s.tick) with h | h
    · simp [x86_64.save_registers, x86_64.restore_registers, ptrace_GETREGS,
        ptrace_SETREGS, h]
    · have hne : E.err s.tick ≠ 0 := Nat.pos_iff_ne_zero.mp h
      simp [x86_64.save_registers, x86_64.restore_registers, ptrace_GETREGS,
        ptrace_SETREGS, State.failed, hne, h]
  · intro E F s h0 h1 h2
    by_cases hp : process_is_stopped E = 0
    · have h1' := h1 hp
      simp only [snapshot_tick, hp, ne_eq, not_true_eq_false, if_false] at h2 ⊢
      have hnn : ¬((E.err (s.tick + 1 + 1) : Int) < 0) := by omega
      have t2 : s.tick + 1 + 1 = s.tick + 2 := rfl
      simp [x86_64.get_process, start_ptrace, ptrace_plain, waitpid,
        x86_64.save_registers, ptrace_GETREGS, State.failed, traced, start_ops,
        h0, h1', h2, hp, hnn]
      exact call_trace_head _ _ _ _
    · simp only [snapshot_tick, hp, ne_eq, not_false_eq_true, if_true] at h2 ⊢
      have hnn : ¬((E.err (s.tick + 1) : Int) < 0) := by omega
      simp [x86_64.get_process, start_ptrace, ptrace_plain, waitpid,
        x86_64.save_registers, ptrace_GETREGS, State.failed, traced, start_ops,
        h0, h2, hp, hnn]
      exact call_trace_head _ _ _ _
  · intro E r s h
    have hp : 0 < E.err s.tick := Nat.pos_iff_ne_zero.mpr h
    simp [sparc.save_registers, sparc.restore_registers, ptrace_GETREGS,
      ptrace_SETREGS, State.failed, h, hp]
  · intro A E F s h0 h1 h2
    by_cases hp : process_is_stopped E = 0
    · have h1' := h1 hp
      simp only [snapshot_tick, hp, ne_eq, not_true_eq_false, if_false] at h2 ⊢
      have hpos : 0 < E.err (s.tick + 1 + 1) := Nat.pos_iff_ne_zero.mpr h2
      by_cases hd : E.err (s.tick + 1 + 1 + 1) = 0 <;>
        simp [sparc.get_process, start_ptrace, out_ptrace, end_ptrace, ptrace_plain, waitpid,
          sparc.save_registers, ptrace_GETREGS, State.failed, traced, start_ops,
          h0, h1', h2, hp, hpos, hd]
    · simp only [snapshot_tick, hp, ne_eq, not_false_eq_true, if_true] at h2 ⊢
      have hpos : 0 < E.err (s.tick + 1) := Nat.pos_iff_ne_zero.mpr h2
      by_cases hd : E.err (s.tick + 1 + 1) = 0 <;>
        simp [sparc.get_process, start_ptrace, out_ptrace, end_ptrace, ptrace_plain, waitpid,
          sparc.save_registers, ptrace_GETREGS, State.failed, traced, start_ops,
          h0, h2, hp, hpos, hd]

/-- Instance of C13: the register snapshot of `get_process` is request 2 and
fails with error 3.  The x86-64 `save_registers` returns 3 and the VMA fetcher
is invoked; the SPARC `save_registers` returns -3 and the run detaches at once. -/
theorem save_registers_sign_witness :
    (x86_64.save_registers (x86_64.env_fail 0) x86_64.regs0 x86_64.state0).1 = 3 ∧
    (∃ b t, (x86_64.get_process (x86_64.env_fail 2) x86_64.fetchers_ok x86_64.state0).2 =
      [.PTRACE_ATTACH true, .waitpid true] ++
        (.save_registers 3 x86_64.regs0 :: .fetch_chunks_vma b :: t)) ∧
    (sparc.save_registers (sparc.env_fail 0) sparc.regs0 sparc.state0).1 = -3 ∧
    (∃ ok, (sparc.get_process sparc.arch32 (sparc.env_fail 2) sparc.fetchers_ok
        sparc.state0).2 =
      [.PTRACE_ATTACH true, .waitpid true] ++
        [.save_registers (-3) sparc.regs0, .PTRACE_DETACH ok]) :=
  ⟨((save_registers_sign.1 (x86_64.env_fail 0) x86_64.regs0 x86_64.state0).2.2
      (by decide)).1,
   save_registers_sign.2.1 (x86_64.env_fail 2) x86_64.fetchers_ok x86_64.state0
      (by decide) (fun _ => by decide) (by decide),
   ((save_registers_sign.2.2.1 (sparc.env_fail 0) sparc.regs0 sparc.state0)
      (by decide)).1,
   save_registers_sign.2.2.2 sparc.arch32 (sparc.env_fail 2) sparc.fetchers_ok sparc.state0
      (by decide) (fun _ => by decide) (by decide)⟩

end Cryopid
